import Mathlib

/-!
# batteries-api: cluster status aggregation and push loop

A shallow embedding of `batteries-api/main.go`: the snapshot composer
`getDashboardData`, the request handlers `handleDashboard`, `handleServices`,
`handleDatabases`, the streaming handler `handleWebSocket`, and the JSON
field names fixed by the struct tags.

The collaborators that are not part of the repository are parameters:

* the cluster API client (`Clientset`): every `List` call yields the Go pair
  (list object, error);
* the process-wide random source (`Rand`): the result of each successive call;
* the wall clock (`Clock`): the result of each successive `time.Now()`;
* the streaming connection (`WsEnv`): whether the upgrade and each write succeed.

`float64` values are modelled exactly (see `Float64`), Go `int` values as `Int`.
-/

namespace BatteriesApi

/-! ## binary64 arithmetic -/

/-- A finite non-negative IEEE-754 binary64 value, held as its exact magnitude
counted in units of `2^-1074` (the smallest subnormal). Every finite binary64 is
an integer number of such units; the ones that occur are those with at most 53
significant bits (`Float64.Representable`). -/
structure Float64 where
  units : Nat
deriving DecidableEq, Repr

namespace Float64

/-- Helper for `bitLen`, recursing on a fuel that bounds the argument. -/
def bitLenAux : Nat → Nat → Nat
  | 0, _ => 0
  | fuel + 1, n => if n = 0 then 0 else bitLenAux fuel (n / 2) + 1

/-- Number of significant bits of `n` (0 for 0). -/
def bitLen (n : Nat) : Nat := bitLenAux n n

/-- Round-to-nearest, ties-to-even, of the exact value `n / 2^k` units to a
binary64, returned in units. The rounding quantum is one unit below `2^53` units
(subnormals and the first normal binade) and `2^(bitLen - 53)` units above.
Overflow to infinity is not modelled: the values computed by the source stay
below 200. -/
def roundDyadic (n k : Nat) : Nat :=
  let t := max k (bitLen n - 53)
  let q := n / 2 ^ t
  let rem := n % 2 ^ t
  let up := decide (2 ^ t < 2 * rem) || (decide (2 * rem = 2 ^ t) && decide (q % 2 = 1))
  (if up then q + 1 else q) * 2 ^ (t - k)

/-- A number of units is a binary64 value when it has at most 53 significant bits. -/
def Representable (b : Nat) : Prop := b % 2 ^ (bitLen b - 53) = 0

instance instDecidableRepresentable (b : Nat) : Decidable (Representable b) :=
  inferInstanceAs (Decidable (b % 2 ^ (bitLen b - 53) = 0))

/-- The binary64 value of a small integer constant such as `42.0`. -/
def ofNat (n : Nat) : Float64 := ⟨n * 2 ^ 1074⟩

/-- The binary64 value `m * 2^-k`, used for decimal constants of the source given
by their exact binary expansion. -/
def lit (m k : Nat) : Float64 := ⟨m * 2 ^ (1074 - k)⟩

/-- The binary64 sum `a + b` (correctly rounded). -/
def add (a b : Float64) : Float64 := ⟨roundDyadic (a.units + b.units) 0⟩

/-- The binary64 product `a * b` (correctly rounded). -/
def mul (a b : Float64) : Float64 := ⟨roundDyadic (a.units * b.units) 1074⟩

/-- The fused multiply-add `a * b + c`, rounded once; a Go compiler may evaluate
`c + a * b` this way on targets that have the instruction. -/
def fma (a b c : Float64) : Float64 :=
  ⟨roundDyadic (a.units * b.units + c.units * 2 ^ 1074) 1074⟩

instance instAdd : Add Float64 := ⟨add⟩
instance instMul : Mul Float64 := ⟨mul⟩
instance instLE : LE Float64 := ⟨fun a b => a.units ≤ b.units⟩
instance instLT : LT Float64 := ⟨fun a b => a.units < b.units⟩

instance instDecidableLE (a b : Float64) : Decidable (a ≤ b) :=
  inferInstanceAs (Decidable (a.units ≤ b.units))

instance instDecidableLT (a b : Float64) : Decidable (a < b) :=
  inferInstanceAs (Decidable (a.units < b.units))

end Float64

/-! ## Time -/

/-- An instant (`time.Time`), as nanoseconds since the Unix epoch. -/
abbrev Time := Int

/-- A `time.Duration`, in nanoseconds. -/
abbrev Duration := Int

/-- The constant `time.Second`. -/
def Second : Duration := 1000000000

/-- The constant `time.Minute`. -/
def Minute : Duration := 60 * Second

/-- The constant `time.Hour`. -/
def Hour : Duration := 60 * Minute

/-- The method `Time.Add`. -/
def Time.Add (t : Time) (d : Duration) : Time := t + d

/-- The wall clock: `Now i` is the value of the `i`-th call of `time.Now()`
made by one invocation of the composer. -/
structure Clock where
  Now : Nat → Time

/-! ## Random source -/

/-- The process-wide `math/rand` source, as seen by one handler invocation: the
result of the `i`-th call, when that call is `Float64()`, respectively `Intn(n)`. -/
structure Rand where
  Float64 : Nat → Float64
  Intn : Nat → Int → Int

/-- The library contract of `rand.Float64`: every value drawn lies in `[0, 1)`. -/
def Rand.UnitFloats (rnd : Rand) : Prop :=
  ∀ i, rnd.Float64 i < Float64.ofNat 1

/-- The library contract of `rand.Intn`: for `n > 0` the value lies in `[0, n)`. -/
def Rand.BoundedInts (rnd : Rand) : Prop :=
  ∀ i n, 0 < n → 0 ≤ rnd.Intn i n ∧ rnd.Intn i n < n

/-! ## Cluster API objects and client -/

/-- The constant `v1.NodeReady`. -/
def NodeReady : String := "Ready"

/-- The constant `v1.ConditionTrue`. -/
def ConditionTrue : String := "True"

/-- The fields of `v1.NodeCondition` read by the source. -/
structure NodeCondition where
  Typ : String
  Status : String
deriving DecidableEq, Repr

/-- The field of `v1.NodeStatus` read by the source. -/
structure NodeStatus where
  Conditions : List NodeCondition
deriving DecidableEq, Repr

/-- A `v1.Node`. -/
structure Node where
  Status : NodeStatus
deriving DecidableEq, Repr

/-- A `v1.Namespace`, with its metadata name. -/
structure Namespace where
  Name : String
deriving DecidableEq, Repr

/-- A `v1.Pod`, with its metadata name. -/
structure Pod where
  Name : String
deriving DecidableEq, Repr

/-- A `v1.Service`, with its metadata namespace and name. -/
structure Service where
  Namespace : String
  Name : String
deriving DecidableEq, Repr

/-- The Go pair returned by a typed `List` call: the list object (its `Items`)
and the error (`none` for `nil`). The typed client always returns a list object;
alongside a non-nil error it holds whatever had been decoded when the call
failed, which is usually nothing but need not be. -/
structure ListResult (α : Type) where
  Items : List α
  err : Option String

/-- A `context.Context` as far as the handlers are concerned: the background
context, or the context of an inbound request together with whether that request
has been cancelled (client gone, or the caller closed it). -/
inductive Context where
  | Background
  | ofRequest (cancelled : Bool)
deriving DecidableEq, Repr

/-- The method `ctx.Err()`: the background context is never cancelled. -/
def Context.Err : Context → Option String
  | .Background => none
  | .ofRequest cancelled => if cancelled then some "context canceled" else none

/-- An inbound HTTP request, reduced to the cancellation state of its context. -/
structure Request where
  cancelled : Bool
deriving DecidableEq, Repr

/-- The method `r.Context()`. -/
def Request.Context (r : Request) : Context := Context.ofRequest r.cancelled

/-- The read-only calls of `s.k8sClient.CoreV1()` made by the source; the string
argument is the namespace of the query. -/
structure Clientset where
  Nodes : Context → ListResult Node
  Namespaces : Context → ListResult Namespace
  Pods : String → Context → ListResult Pod
  Services : String → Context → ListResult Service

/-- The answer of each cluster query, as the pair the typed client returns. -/
structure Cluster where
  nodes : ListResult Node
  namespaces : ListResult Namespace
  pods : String → ListResult Pod
  services : String → ListResult Service

/-- The client whose answers are those of the given cluster, whatever the context. -/
def Cluster.clientset (c : Cluster) : Clientset where
  Nodes := fun _ => c.nodes
  Namespaces := fun _ => c.namespaces
  Pods := fun name _ => c.pods name
  Services := fun name _ => c.services name

/-- The answer of a call that is given an already cancelled context: it returns
the error before anything is fetched. -/
def ListResult.cancelled {α : Type} : ListResult α := ⟨[], some "context canceled"⟩

/-- The client of a cluster whose calls abort with an error as soon as the context
they are given is cancelled. -/
def Cluster.cancellableClientset (c : Cluster) : Clientset where
  Nodes := fun ctx => if ctx.Err = none then c.nodes else ListResult.cancelled
  Namespaces := fun ctx => if ctx.Err = none then c.namespaces else ListResult.cancelled
  Pods := fun name ctx => if ctx.Err = none then c.pods name else ListResult.cancelled
  Services := fun name ctx => if ctx.Err = none then c.services name else ListResult.cancelled

/-! ## Snapshot data model -/

/-- The struct `InstallationsData`. -/
structure InstallationsData where
  Total : Int
  Healthy : Int
  Degraded : Int
  Offline : Int
deriving DecidableEq, Repr

/-- The struct `ServicesData`. -/
structure ServicesData where
  Total : Int
  Uptime : Float64
  ErrorRate : Float64
  P95Latency : Int
  Deployments : Int
deriving DecidableEq, Repr

/-- The struct `DatabasesData`. -/
structure DatabasesData where
  Total : Int
  AllSynced : Bool
  BackupStatus : String
  ReplicationLag : Int
  NextBackupHours : Int
deriving DecidableEq, Repr

/-- The struct `ClusterData`. -/
structure ClusterData where
  CPUUsage : Float64
  MemoryUsage : Float64
  Nodes : Int
  NodesReady : Int
deriving DecidableEq, Repr

/-- The struct `SecurityData`. -/
structure SecurityData where
  Status : String
  CertificatesOK : Bool
  SSOActive : Bool
  CertExpireDays : Int
deriving DecidableEq, Repr

/-- The struct `ProjectData`. -/
structure ProjectData where
  Name : String
  Version : String
  Status : String
  Health : String
  Deployment : String
deriving DecidableEq, Repr

/-- The struct `NamespaceData`. -/
structure NamespaceData where
  Name : String
  CPUUsage : Float64
  MemoryUsage : Float64
  PodCount : Int
  ServiceCount : Int
deriving DecidableEq, Repr

/-- The struct `AlertData` (`Typ` is the Go field `Type`). -/
structure AlertData where
  Typ : String
  Severity : String
  Message : String
  Source : String
  Timestamp : Time
deriving DecidableEq, Repr

/-- The struct `ActivityData` (`Typ` is the Go field `Type`). -/
structure ActivityData where
  Typ : String
  Message : String
  Timestamp : Time
deriving DecidableEq, Repr

/-- The struct `DashboardData`. A nil slice and an empty slice are both the empty
list; the source never builds an empty non-nil slice. -/
structure DashboardData where
  Installations : InstallationsData
  Services : ServicesData
  Databases : DatabasesData
  Cluster : ClusterData
  Security : SecurityData
  Projects : List ProjectData
  Namespaces : List NamespaceData
  Alerts : List AlertData
  RecentActivity : List ActivityData
deriving DecidableEq, Repr

/-- The struct `ServiceMetrics`. -/
structure ServiceMetrics where
  Name : String
  ErrorRate : Float64
  P95Latency : Int
  RequestsPerSec : Int
  Status : String
deriving DecidableEq, Repr

/-- The struct `DatabaseMetrics` (`Typ` is the Go field `Type`). -/
structure DatabaseMetrics where
  Name : String
  Typ : String
  Status : String
  CPUUsage : Float64
  MemoryUsage : Float64
  Connections : Int
  MaxConnections : Int
  CacheHitRate : Float64
  ReplicationLag : Int
  LastBackup : String
deriving DecidableEq, Repr

/-- The zero value `DashboardData{}`. -/
def DashboardData.zero : DashboardData where
  Installations := ⟨0, 0, 0, 0⟩
  Services := ⟨0, ⟨0⟩, ⟨0⟩, 0, 0⟩
  Databases := ⟨0, false, "", 0, 0⟩
  Cluster := ⟨⟨0⟩, ⟨0⟩, 0, 0⟩
  Security := ⟨"", false, false, 0⟩
  Projects := []
  Namespaces := []
  Alerts := []
  RecentActivity := []

/-! ## Snapshot composer -/

/-- The inner loop of `getDashboardData` over `node.Status.Conditions`: the counter
is incremented at the first condition of type Ready with status True, and the
scan stops there (`break`). -/
def conditionsLoop : List NodeCondition → Int → Int
  | [], ready => ready
  | condition :: rest, ready =>
    if condition.Typ = NodeReady ∧ condition.Status = ConditionTrue then ready + 1
    else conditionsLoop rest ready

/-- The outer loop of `getDashboardData` over `nodes.Items`, threading
`data.Cluster.NodesReady`. -/
def nodesLoop : List Node → Int → Int
  | [], ready => ready
  | node :: rest, ready => nodesLoop rest (conditionsLoop node.Status.Conditions ready)

/-- The loop of `getDashboardData` over `namespaces.Items`: for each namespace the
pod and service queries are issued (their errors discarded), two random values
are drawn, and the record is appended. The state is `data.Namespaces` and the
number of random values drawn so far. -/
def namespacesLoop (s : Clientset) (ctx : Context) (rnd : Rand) :
    List Namespace → List NamespaceData × Nat → List NamespaceData × Nat
  | [], st => st
  | ns :: rest, st =>
    let pods := s.Pods ns.Name ctx
    let services := s.Services ns.Name ctx
    let nsData : NamespaceData :=
      { Name := ns.Name
        PodCount := pods.Items.length
        ServiceCount := services.Items.length
        CPUUsage := rnd.Float64 st.2 * Float64.ofNat 100
        MemoryUsage := rnd.Float64 (st.2 + 1) * Float64.ofNat 100 }
    namespacesLoop s ctx rnd rest (st.1 ++ [nsData], st.2 + 2)

/-- The method `getDashboardData`: the snapshot and the returned error. -/
def getDashboardData (s : Clientset) (ctx : Context) (rnd : Rand) (clk : Clock) :
    DashboardData × Option String :=
  let data := DashboardData.zero
  -- Get cluster data
  let nodes := s.Nodes ctx
  let data :=
    if nodes.err = none then
      { data with
        Cluster :=
          { data.Cluster with
            Nodes := nodes.Items.length
            NodesReady := nodesLoop nodes.Items 0 } }
    else data
  -- Get namespace data
  let namespaces := s.Namespaces ctx
  let looped :=
    if namespaces.err = none then namespacesLoop s ctx rnd namespaces.Items (data.Namespaces, 0)
    else (data.Namespaces, 0)
  let data := { data with Namespaces := looped.1 }
  let drawn := looped.2
  -- Simulated metrics
  let data := { data with Installations := ⟨3, 2, 1, 0⟩ }
  let data :=
    { data with
      Services :=
        { Total := 47
          Uptime := Float64.lit 0x18cccccccccccd 46 -- 99.2
          ErrorRate := Float64.lit 0x147ae147ae147b 58 -- 0.02
          P95Latency := 145
          Deployments := 3 } }
  let data := { data with Databases := ⟨8, true, "Completed", 0, 2⟩ }
  let data :=
    { data with
      Cluster :=
        { data.Cluster with
          CPUUsage := Float64.ofNat 42 + rnd.Float64 drawn * Float64.ofNat 10 } }
  let data :=
    { data with
      Cluster :=
        { data.Cluster with
          MemoryUsage := Float64.ofNat 58 + rnd.Float64 (drawn + 1) * Float64.ofNat 10 } }
  let data := { data with Security := ⟨"OK", true, true, 82⟩ }
  -- Sample projects
  let data :=
    { data with
      Projects :=
        [ ⟨"batteries-core", "v2.1.0", "Running", "Healthy", "Stable"⟩,
          ⟨"ml-workspace", "v1.0.0", "Deploying", "Degraded", "In Progress"⟩,
          ⟨"api-gateway", "v1.8.3", "Running", "Healthy", "Stable"⟩ ] }
  -- Sample alerts
  let data :=
    { data with
      Alerts :=
        [ { Typ := "warning", Severity := "medium", Message := "High Memory Usage",
            Source := "mongo-analytics", Timestamp := (clk.Now 0).Add (-15 * Minute) },
          { Typ := "info", Severity := "low", Message := "Scheduled Maintenance",
            Source := "system", Timestamp := (clk.Now 1).Add (-2 * Hour) } ] }
  -- Recent activity
  let data :=
    { data with
      RecentActivity :=
        [ ⟨"deployment", "Deployment completed", (clk.Now 2).Add (-5 * Minute)⟩,
          ⟨"scaling", "Auto-scaling triggered", (clk.Now 3).Add (-12 * Minute)⟩,
          ⟨"backup", "Backup completed", (clk.Now 4).Add (-2 * Hour)⟩ ] }
  (data, none)

/-! ## JSON encoding (struct tags) -/

/-- A JSON document as produced by `encoding/json`; a `time.Time` is kept as an
instant (it is rendered as an RFC 3339 string). -/
inductive JSON where
  | null
  | bool (b : Bool)
  | int (n : Int)
  | float (x : Float64)
  | str (s : String)
  | time (t : Time)
  | arr (elems : List JSON)
  | obj (fields : List (String × JSON))

/-- The keys of a JSON object, in emission order (empty for a non-object). -/
def JSON.keys : JSON → List String
  | .obj fields => fields.map Prod.fst
  | _ => []

/-- The value stored under a key of a JSON object. -/
def JSON.get? : JSON → String → Option JSON
  | .obj fields, key => (fields.find? (fun kv => kv.1 == key)).map Prod.snd
  | _, _ => none

/-- The elements of a JSON array (empty for a non-array). -/
def JSON.elems : JSON → List JSON
  | .arr elems => elems
  | _ => []

/-- Encoding of a slice: a nil slice is `null`, any other slice an array. -/
def JSON.ofSlice {α : Type} (enc : α → JSON) (xs : List α) : JSON :=
  if xs.isEmpty then .null else .arr (xs.map enc)

/-- Encoding of `InstallationsData` by its struct tags. -/
def InstallationsData.toJSON (d : InstallationsData) : JSON :=
  .obj [("total", .int d.Total), ("healthy", .int d.Healthy),
    ("degraded", .int d.Degraded), ("offline", .int d.Offline)]

/-- Encoding of `ServicesData` by its struct tags. -/
def ServicesData.toJSON (d : ServicesData) : JSON :=
  .obj [("total", .int d.Total), ("uptime", .float d.Uptime),
    ("errorRate", .float d.ErrorRate), ("p95Latency", .int d.P95Latency),
    ("deployments", .int d.Deployments)]

/-- Encoding of `DatabasesData` by its struct tags. -/
def DatabasesData.toJSON (d : DatabasesData) : JSON :=
  .obj [("total", .int d.Total), ("allSynced", .bool d.AllSynced),
    ("backupStatus", .str d.BackupStatus), ("replicationLag", .int d.ReplicationLag),
    ("nextBackupHours", .int d.NextBackupHours)]

/-- Encoding of `ClusterData` by its struct tags. -/
def ClusterData.toJSON (d : ClusterData) : JSON :=
  .obj [("cpuUsage", .float d.CPUUsage), ("memoryUsage", .float d.MemoryUsage),
    ("nodes", .int d.Nodes), ("nodesReady", .int d.NodesReady)]

/-- Encoding of `SecurityData` by its struct tags. -/
def SecurityData.toJSON (d : SecurityData) : JSON :=
  .obj [("status", .str d.Status), ("certificatesOk", .bool d.CertificatesOK),
    ("ssoActive", .bool d.SSOActive), ("certExpireDays", .int d.CertExpireDays)]

/-- Encoding of `ProjectData` by its struct tags. -/
def ProjectData.toJSON (d : ProjectData) : JSON :=
  .obj [("name", .str d.Name), ("version", .str d.Version), ("status", .str d.Status),
    ("health", .str d.Health), ("deployment", .str d.Deployment)]

/-- Encoding of `NamespaceData` by its struct tags. -/
def NamespaceData.toJSON (d : NamespaceData) : JSON :=
  .obj [("name", .str d.Name), ("cpuUsage", .float d.CPUUsage),
    ("memoryUsage", .float d.MemoryUsage), ("podCount", .int d.PodCount),
    ("serviceCount", .int d.ServiceCount)]

/-- Encoding of `AlertData` by its struct tags. -/
def AlertData.toJSON (d : AlertData) : JSON :=
  .obj [("type", .str d.Typ), ("severity", .str d.Severity), ("message", .str d.Message),
    ("source", .str d.Source), ("timestamp", .time d.Timestamp)]

/-- Encoding of `ActivityData` by its struct tags. -/
def ActivityData.toJSON (d : ActivityData) : JSON :=
  .obj [("type", .str d.Typ), ("message", .str d.Message), ("timestamp", .time d.Timestamp)]

/-- Encoding of `DashboardData` by its struct tags. -/
def DashboardData.toJSON (d : DashboardData) : JSON :=
  .obj [("installations", d.Installations.toJSON), ("services", d.Services.toJSON),
    ("databases", d.Databases.toJSON), ("cluster", d.Cluster.toJSON),
    ("security", d.Security.toJSON),
    ("projects", JSON.ofSlice ProjectData.toJSON d.Projects),
    ("namespaces", JSON.ofSlice NamespaceData.toJSON d.Namespaces),
    ("alerts", JSON.ofSlice AlertData.toJSON d.Alerts),
    ("recentActivity", JSON.ofSlice ActivityData.toJSON d.RecentActivity)]

/-- Encoding of `ServiceMetrics` by its struct tags. -/
def ServiceMetrics.toJSON (m : ServiceMetrics) : JSON :=
  .obj [("name", .str m.Name), ("errorRate", .float m.ErrorRate),
    ("p95Latency", .int m.P95Latency), ("requestsPerSec", .int m.RequestsPerSec),
    ("status", .str m.Status)]

/-- Encoding of `DatabaseMetrics` by its struct tags. -/
def DatabaseMetrics.toJSON (m : DatabaseMetrics) : JSON :=
  .obj [("name", .str m.Name), ("type", .str m.Typ), ("status", .str m.Status),
    ("cpuUsage", .float m.CPUUsage), ("memoryUsage", .float m.MemoryUsage),
    ("connections", .int m.Connections), ("maxConnections", .int m.MaxConnections),
    ("cacheHitRate", .float m.CacheHitRate), ("replicationLag", .int m.ReplicationLag),
    ("lastBackup", .str m.LastBackup)]

/-! ## Request handlers -/

/-- The body written to the `http.ResponseWriter`. -/
inductive Body where
  | text (s : String)
  | json (v : JSON)

/-- What a handler wrote: status code, content type and body. -/
structure Response where
  Status : Nat
  ContentType : String
  Body : Body

/-- The handler `handleDashboard`: the composer runs under the request context; a
non-nil error is answered with status 500, otherwise the snapshot is encoded. -/
def handleDashboard (s : Clientset) (r : Request) (rnd : Rand) (clk : Clock) : Response :=
  let ctx := r.Context
  let res := getDashboardData s ctx rnd clk
  match res.2 with
  | some err => ⟨500, "text/plain; charset=utf-8", .text (err ++ "\n")⟩
  | none => ⟨200, "application/json", .json res.1.toJSON⟩

/-- The function `min` of the source. -/
def min (a b : Int) : Int :=
  if a < b then a else b

/-- The fixed entries with which `handleServices` starts its list. -/
def sampleServices : List ServiceMetrics :=
  [ ⟨"auth-service", Float64.lit 0x1999999999999a 53, 234, 1200, "healthy"⟩, -- 0.8
    ⟨"data-processor", Float64.lit 0x147ae147ae147b 58, 845, 450, "healthy"⟩, -- 0.02
    ⟨"webhook-handler", Float64.lit 1 1, 123, 890, "degraded"⟩, -- 0.5
    ⟨"api-gateway", Float64.lit 0x147ae147ae147b 59, 89, 3400, "healthy"⟩, -- 0.01
    ⟨"ml-inference", Float64.lit 0x1eb851eb851eb8 58, 567, 230, "healthy"⟩ ] -- 0.03

/-- The loop of `handleServices` over the sliced `svcList.Items`: one entry is
appended per service, drawing `Float64()`, `Intn(500)`, `Intn(1000)` in that order.
The state is the list built so far and the number of random calls made. -/
def servicesLoop (rnd : Rand) :
    List Service → List ServiceMetrics × Nat → List ServiceMetrics × Nat
  | [], st => st
  | svc :: rest, st =>
    let entry : ServiceMetrics :=
      { Name := svc.Namespace ++ "/" ++ svc.Name
        ErrorRate := rnd.Float64 st.2 * Float64.lit 1 1
        P95Latency := rnd.Intn (st.2 + 1) 500 + 50
        RequestsPerSec := rnd.Intn (st.2 + 2) 1000 + 100
        Status := "healthy" }
    servicesLoop rnd rest (st.1 ++ [entry], st.2 + 3)

/-- The slice `services` of `handleServices` at the point where it is encoded. -/
def handleServices.services (s : Clientset) (r : Request) (rnd : Rand) : List ServiceMetrics :=
  let ctx := r.Context
  let services := sampleServices
  -- Get real services from Kubernetes
  let svcList := s.Services "" ctx
  if svcList.err = none ∧ (svcList.Items.length : Int) > 0 then
    (servicesLoop rnd
      (svcList.Items.take (BatteriesApi.min 5 svcList.Items.length).toNat) (services, 0)).1
  else services

/-- The handler `handleServices`. -/
def handleServices (s : Clientset) (r : Request) (rnd : Rand) : Response :=
  ⟨200, "application/json",
    .json (JSON.ofSlice ServiceMetrics.toJSON (handleServices.services s r rnd))⟩

/-- The slice `databases` of `handleDatabases`; the eight random calls are made in
the order of the literal. -/
def handleDatabases.databases (rnd : Rand) : List DatabaseMetrics :=
  [ { Name := "postgres-main", Typ := "PostgreSQL", Status := "Ready"
      CPUUsage := Float64.ofNat 12 + rnd.Float64 0 * Float64.ofNat 5
      MemoryUsage := Float64.ofNat 45 + rnd.Float64 1 * Float64.ofNat 10
      Connections := 24 + rnd.Intn 2 20
      MaxConnections := 100
      CacheHitRate := Float64.lit 0x188ccccccccccd 46 -- 98.2
      ReplicationLag := 0
      LastBackup := "2h ago" },
    { Name := "redis-cache", Typ := "Redis", Status := "Ready"
      CPUUsage := Float64.ofNat 8 + rnd.Float64 3 * Float64.ofNat 3
      MemoryUsage := Float64.ofNat 22 + rnd.Float64 4 * Float64.ofNat 10
      Connections := 145 + rnd.Intn 5 50
      MaxConnections := 500
      CacheHitRate := Float64.lit 0x18c66666666666 46 -- 99.1
      ReplicationLag := 0
      LastBackup := "N/A" },
    { Name := "mongo-analytics", Typ := "MongoDB", Status := "Degraded"
      CPUUsage := Float64.ofNat 78 + rnd.Float64 6 * Float64.ofNat 10
      MemoryUsage := Float64.ofNat 82 + rnd.Float64 7 * Float64.ofNat 10
      Connections := 89
      MaxConnections := 100
      CacheHitRate := Float64.lit 0x15d33333333333 46 -- 87.3
      ReplicationLag := 4200
      LastBackup := "4h ago" } ]

/-- The handler `handleDatabases`. -/
def handleDatabases (rnd : Rand) : Response :=
  ⟨200, "application/json",
    .json (JSON.ofSlice DatabaseMetrics.toJSON (handleDatabases.databases rnd))⟩

/-! ## Push loop -/

/-- The collaborators of one streaming connection: whether the upgrade succeeds,
the cluster client, random source and clock in force at the `n`-th tick, and
whether the `n`-th call of `conn.WriteJSON` succeeds (counting from 0). -/
structure WsEnv where
  upgradeOk : Bool
  client : Nat → Clientset
  rand : Nat → Rand
  clock : Nat → Clock
  writeOk : Nat → Bool

/-- What can happen while the handler runs: the ticker fires, or the context of
the request is cancelled (the client went away or the caller closed it). -/
inductive Event where
  | tick
  | cancel
deriving DecidableEq, Repr

/-- Control state of the handler between events: blocked in the `select`, or
returned. -/
inductive Phase where
  | Waiting
  | Closed
deriving DecidableEq, Repr

/-- State of one run of `handleWebSocket`: the control state, the request, the
number of ticks taken from `ticker.C`, the contexts handed to `getDashboardData`
(one per call), the number of `conn.WriteJSON` calls, the snapshots delivered, and
whether the deferred `ticker.Stop()` and `conn.Close()` have run. -/
structure WsState where
  phase : Phase
  request : Request
  ticks : Nat
  composed : List Context
  writes : Nat
  sent : List DashboardData
  tickerStopped : Bool
  connClosed : Bool
deriving DecidableEq, Repr

/-- The part of `handleWebSocket` before the loop: a failed upgrade returns at
once (nothing is deferred yet); otherwise the ticker is armed and the handler
blocks in the `select`. -/
def handleWebSocket.start (env : WsEnv) (r : Request) : WsState :=
  if env.upgradeOk then ⟨.Waiting, r, 0, [], 0, [], false, false⟩
  else ⟨.Closed, r, 0, [], 0, [], false, false⟩

/-- One event of the loop of `handleWebSocket`. The `select` has the single case
`<-ticker.C`, so a cancellation only changes the request. On a tick the composer
runs under `context.Background()`; an error from it continues the loop, a failed
write returns (running the deferred calls), a successful write loops. -/
def handleWebSocket.step (env : WsEnv) (st : WsState) : Event → WsState
  | .cancel => { st with request := { st.request with cancelled := true } }
  | .tick =>
    match st.phase with
    | .Closed => st
    | .Waiting =>
      let ctx := Context.Background
      let res := getDashboardData (env.client st.ticks) ctx (env.rand st.ticks)
        (env.clock st.ticks)
      let st := { st with ticks := st.ticks + 1, composed := st.composed ++ [ctx] }
      match res.2 with
      | some _ => st
      | none =>
        if env.writeOk st.writes then
          { st with writes := st.writes + 1, sent := st.sent ++ [res.1] }
        else
          { st with
            writes := st.writes + 1
            phase := .Closed
            tickerStopped := true
            connClosed := true }

/-- The handler `handleWebSocket`, run over a sequence of events. -/
def handleWebSocket (env : WsEnv) (r : Request) (events : List Event) : WsState :=
  events.foldl (handleWebSocket.step env) (handleWebSocket.start env r)

/-- The snapshot composed at the tick numbered `t` (counting from 0). -/
def WsEnv.snapshot (env : WsEnv) (t : Nat) : DashboardData :=
  (getDashboardData (env.client t) Context.Background (env.rand t) (env.clock t)).1

/-! ## Reference definitions taken from the specification -/

/-- Readiness as the specification words it: the node reports, somewhere in its
condition list, a Ready condition whose status is True. -/
def Node.isReady (node : Node) : Bool :=
  node.Status.Conditions.any (fun c => c.Typ == "Ready" && c.Status == "True")

/-- The ready-node count as the specification words it. -/
def readyCount (nodes : List Node) : Nat :=
  nodes.countP Node.isReady

/-! ## Concrete inputs -/

/-- A node carrying the Ready condition with status True twice, among others. -/
def readyNode : Node :=
  ⟨⟨[⟨"MemoryPressure", "False"⟩, ⟨"Ready", "True"⟩, ⟨"Ready", "True"⟩]⟩⟩

/-- A node whose only Ready condition has status Unknown. -/
def unreadyNode : Node :=
  ⟨⟨[⟨"Ready", "Unknown"⟩, ⟨"DiskPressure", "True"⟩]⟩⟩

/-- The scenario of the specification: two nodes of which one is ready, and the
single namespace default holding three pods and one service. -/
def scenarioCluster : Cluster where
  nodes := ⟨[readyNode, unreadyNode], none⟩
  namespaces := ⟨[⟨"default"⟩], none⟩
  pods := fun name =>
    if name = "default" then ⟨[⟨"web-0"⟩, ⟨"web-1"⟩, ⟨"db-0"⟩], none⟩ else ⟨[], none⟩
  services := fun name =>
    if name = "default" then ⟨[⟨"default", "kubernetes"⟩], none⟩ else ⟨[], none⟩

/-- A cluster in which every query succeeds with zero items. -/
def emptyCluster : Cluster where
  nodes := ⟨[], none⟩
  namespaces := ⟨[], none⟩
  pods := fun _ => ⟨[], none⟩
  services := fun _ => ⟨[], none⟩

/-- A cluster whose node query and whose pod query for the namespace default fail
while the response is being decoded: the error comes with the list object
holding the items decoded so far (one node, three pods). The namespace query and
the service query succeed. -/
def truncatedCluster : Cluster where
  nodes := ⟨[readyNode], some "unexpected EOF"⟩
  namespaces := ⟨[⟨"default"⟩], none⟩
  pods := fun _ => ⟨[⟨"web-0"⟩, ⟨"web-1"⟩, ⟨"db-0"⟩], some "unexpected EOF"⟩
  services := fun _ => ⟨[⟨"default", "kubernetes"⟩], none⟩

/-- The cluster `truncatedCluster` with each failed query replaced by a successful
query returning zero items. -/
def truncatedAsEmpty : Cluster where
  nodes := ⟨[], none⟩
  namespaces := ⟨[⟨"default"⟩], none⟩
  pods := fun _ => ⟨[], none⟩
  services := fun _ => ⟨[⟨"default", "kubernetes"⟩], none⟩

/-- A cluster whose cluster-wide service query returns seven services. -/
def busyCluster : Cluster where
  nodes := ⟨[readyNode], none⟩
  namespaces := ⟨[⟨"default"⟩], none⟩
  pods := fun _ => ⟨[], none⟩
  services := fun _ =>
    ⟨[⟨"default", "kubernetes"⟩, ⟨"default", "web"⟩, ⟨"kube-system", "kube-dns"⟩,
      ⟨"monitoring", "grafana"⟩, ⟨"monitoring", "prometheus"⟩, ⟨"data", "postgres"⟩,
      ⟨"data", "redis"⟩], none⟩

/-- A cluster whose cluster-wide service query returns three services. -/
def smallCluster : Cluster where
  nodes := ⟨[readyNode], none⟩
  namespaces := ⟨[⟨"default"⟩], none⟩
  pods := fun _ => ⟨[], none⟩
  services := fun _ =>
    ⟨[⟨"default", "kubernetes"⟩, ⟨"default", "web"⟩, ⟨"kube-system", "kube-dns"⟩], none⟩

/-- A clock that always reads the epoch. -/
def epochClock : Clock := ⟨fun _ => 0⟩

/-- A random source that always yields zero. -/
def zeroRand : Rand := ⟨fun _ => ⟨0⟩, fun _ _ => 0⟩

/-- The largest binary64 below 1, namely `1 - 2^-53`. -/
def maxDraw : Float64 := Float64.lit (2 ^ 53 - 1) 53

/-- A random source whose every `Float64()` is the largest binary64 below 1. -/
def maxRand : Rand := ⟨fun _ => maxDraw, fun _ _ => 0⟩

/-- A streaming connection over the scenario cluster whose first two writes succeed
and whose third write fails. -/
def thirdWriteFails : WsEnv where
  upgradeOk := true
  client := fun _ => scenarioCluster.clientset
  rand := fun _ => zeroRand
  clock := fun _ => epochClock
  writeOk := fun i => decide (i < 2)

/-- A streaming connection whose every write succeeds, over a client of the scenario
cluster that aborts its calls when their context is cancelled. -/
def steadyConnection : WsEnv where
  upgradeOk := true
  client := fun _ => scenarioCluster.cancellableClientset
  rand := fun _ => zeroRand
  clock := fun _ => epochClock
  writeOk := fun _ => true

/-! ## Lemmas on binary64 rounding -/

namespace Float64

theorem bitLenAux_le_iff (fuel : Nat) : ∀ n L : Nat, n ≤ fuel →
    (bitLenAux fuel n ≤ L ↔ n < 2 ^ L) := by
  induction fuel with
  | zero =>
    intro n L hn
    have h0 : n = 0 := by omega
    subst h0
    simp [bitLenAux]
  | succ fuel ih =>
    intro n L hn
    unfold bitLenAux
    by_cases h0 : n = 0
    · subst h0
      simp
    · rw [if_neg h0]
      cases L with
      | zero =>
        simp
        omega
      | succ L =>
        have hdiv : n / 2 ≤ fuel := by omega
        rw [Nat.add_le_add_iff_right, ih (n / 2) L hdiv, pow_succ]
        exact Nat.div_lt_iff_lt_mul (by norm_num)

theorem bitLen_le_iff (n L : Nat) : bitLen n ≤ L ↔ n < 2 ^ L :=
  bitLenAux_le_iff n n L le_rfl

theorem lt_two_pow_bitLen (n : Nat) : n < 2 ^ bitLen n :=
  (bitLen_le_iff n (bitLen n)).1 le_rfl

theorem two_pow_le_of_lt_bitLen {n L : Nat} (h : L < bitLen n) : 2 ^ L ≤ n := by
  by_contra hlt
  have := (bitLen_le_iff n L).2 (by omega)
  omega

/-- No binary64 value lies strictly between two neighbours of the rounding grid
used for `n / 2^k`. -/
theorem representable_grid (n k b : Nat) (hb : Representable b) :
    ¬ (n / 2 ^ (max k (bitLen n - 53)) * 2 ^ (max k (bitLen n - 53)) < b * 2 ^ k ∧
      b * 2 ^ k < (n / 2 ^ (max k (bitLen n - 53)) + 1) * 2 ^ (max k (bitLen n - 53))) := by
  rintro ⟨hlo, hhi⟩
  by_cases hcase : bitLen n - 53 ≤ k
  · rw [max_eq_left hcase] at hlo hhi
    have h1 := Nat.lt_of_mul_lt_mul_right hlo
    have h2 := Nat.lt_of_mul_lt_mul_right hhi
    omega
  · have hkt : k < bitLen n - 53 := by omega
    rw [max_eq_right (le_of_lt hkt)] at hlo hhi
    obtain ⟨j, hj⟩ : ∃ j, bitLen n - 53 = k + j := ⟨bitLen n - 53 - k, by omega⟩
    have hjpos : 0 < j := by omega
    rw [hj] at hlo hhi
    have hpos : 0 < 2 ^ (k + j) := Nat.pow_pos (by norm_num)
    have hn_lt : n < 2 ^ (k + j + 53) := (bitLen_le_iff n _).1 (by omega)
    have hn_ge : 2 ^ (k + j + 52) ≤ n := two_pow_le_of_lt_bitLen (by omega)
    have hq_lt : n / 2 ^ (k + j) < 2 ^ 53 := by
      apply Nat.div_lt_of_lt_mul
      rw [← pow_add]
      exact hn_lt
    have hq_ge : 2 ^ 52 ≤ n / 2 ^ (k + j) := by
      rw [Nat.le_div_iff_mul_le hpos, ← pow_add]
      rw [show 52 + (k + j) = k + j + 52 by omega]
      exact hn_ge
    -- b lies in the same binade as the grid points
    have hb_lt : b < 2 ^ (j + 53) := by
      have h1 : b * 2 ^ k < 2 ^ 53 * 2 ^ (k + j) :=
        lt_of_lt_of_le hhi (Nat.mul_le_mul_right _ (by omega))
      have h2 : 2 ^ 53 * 2 ^ (k + j) = 2 ^ (j + 53) * 2 ^ k := by
        rw [← pow_add, ← pow_add]
        congr 1
        omega
      rw [h2] at h1
      exact Nat.lt_of_mul_lt_mul_right h1
    have hb_ge : 2 ^ (j + 52) ≤ b := by
      have h1 : 2 ^ 52 * 2 ^ (k + j) < b * 2 ^ k :=
        lt_of_le_of_lt (Nat.mul_le_mul_right _ hq_ge) hlo
      have h2 : 2 ^ 52 * 2 ^ (k + j) = 2 ^ (j + 52) * 2 ^ k := by
        rw [← pow_add, ← pow_add]
        congr 1
        omega
      rw [h2] at h1
      exact le_of_lt (Nat.lt_of_mul_lt_mul_right h1)
    have hlen : bitLen b = j + 53 := by
      have h1 : bitLen b ≤ j + 53 := (bitLen_le_iff b _).2 hb_lt
      have h2 : ¬ bitLen b ≤ j + 52 := by
        rw [bitLen_le_iff]
        omega
      omega
    unfold Representable at hb
    rw [hlen, Nat.add_sub_cancel] at hb
    obtain ⟨c, hc⟩ := Nat.dvd_of_mod_eq_zero hb
    have hbk : b * 2 ^ k = c * 2 ^ (k + j) := by
      rw [hc, pow_add]
      ring
    rw [hbk] at hlo hhi
    have h1 := Nat.lt_of_mul_lt_mul_right hlo
    have h2 := Nat.lt_of_mul_lt_mul_right hhi
    omega

/-- Rounding never exceeds a binary64 value that bounds the exact value from above. -/
theorem roundDyadic_le (n k b : Nat) (hb : Representable b) (h : n ≤ b * 2 ^ k) :
    roundDyadic n k ≤ b := by
  have hgrid := representable_grid n k b hb
  unfold roundDyadic
  simp only []
  generalize ht : max k (bitLen n - 53) = t at hgrid ⊢
  have hkt : k ≤ t := by
    rw [← ht]
    exact le_max_left _ _
  have hpos : 0 < 2 ^ t := Nat.pow_pos (by norm_num)
  have hsplit : 2 ^ t = 2 ^ (t - k) * 2 ^ k := by
    rw [← pow_add]
    congr 1
    omega
  have hdm : 2 ^ t * (n / 2 ^ t) + n % 2 ^ t = n := Nat.div_add_mod n (2 ^ t)
  have hfloor : n / 2 ^ t * 2 ^ t ≤ n := Nat.div_mul_le_self n (2 ^ t)
  apply Nat.le_of_mul_le_mul_right _ (Nat.pow_pos (by norm_num : 0 < 2) : 0 < 2 ^ k)
  rw [Nat.mul_assoc, ← hsplit]
  split
  · rename_i hup
    have hrem : 0 < n % 2 ^ t := by
      simp only [Bool.or_eq_true, Bool.and_eq_true, decide_eq_true_eq] at hup
      omega
    have hlt : n / 2 ^ t * 2 ^ t < b * 2 ^ k := by
      have : n / 2 ^ t * 2 ^ t < n := by
        rw [Nat.mul_comm]
        omega
      omega
    by_contra hcon
    exact hgrid ⟨hlt, by omega⟩
  · omega

/-- Rounding never falls below a binary64 value that bounds the exact value from
below. -/
theorem le_roundDyadic (n k b : Nat) (hb : Representable b) (h : b * 2 ^ k ≤ n) :
    b ≤ roundDyadic n k := by
  have hgrid := representable_grid n k b hb
  unfold roundDyadic
  simp only []
  generalize ht : max k (bitLen n - 53) = t at hgrid ⊢
  have hkt : k ≤ t := by
    rw [← ht]
    exact le_max_left _ _
  have hpos : 0 < 2 ^ t := Nat.pow_pos (by norm_num)
  have hsplit : 2 ^ t = 2 ^ (t - k) * 2 ^ k := by
    rw [← pow_add]
    congr 1
    omega
  have hlt : n < (n / 2 ^ t + 1) * 2 ^ t := by
    have := Nat.lt_succ_iff.2 (Nat.le_refl (n / 2 ^ t))
    exact (Nat.div_lt_iff_lt_mul hpos).1 this
  have hfloor : b * 2 ^ k ≤ n / 2 ^ t * 2 ^ t := by
    by_contra hcon
    exact hgrid ⟨by omega, by omega⟩
  apply Nat.le_of_mul_le_mul_right _ (Nat.pow_pos (by norm_num : 0 < 2) : 0 < 2 ^ k)
  rw [Nat.mul_assoc, ← hsplit]
  split
  · have : n / 2 ^ t * 2 ^ t ≤ (n / 2 ^ t + 1) * 2 ^ t := Nat.mul_le_mul_right _ (by omega)
    omega
  · exact hfloor

theorem representable_consts :
    Representable (10 * 2 ^ 1074) ∧ Representable (42 * 2 ^ 1074) ∧
      Representable (52 * 2 ^ 1074) ∧ Representable (58 * 2 ^ 1074) ∧
      Representable (68 * 2 ^ 1074) := by
  decide!

theorem le_def (a b : Float64) : a ≤ b ↔ a.units ≤ b.units := Iff.rfl

theorem lt_def (a b : Float64) : a < b ↔ a.units < b.units := Iff.rfl

theorem add_units (a b : Float64) : (a + b).units = roundDyadic (a.units + b.units) 0 := rfl

theorem mul_units (a b : Float64) : (a * b).units = roundDyadic (a.units * b.units) 1074 := rfl

theorem ofNat_units (n : Nat) : (ofNat n).units = n * 2 ^ 1074 := rfl

/-- The value `base + r * 10` computed in binary64 lies in the closed interval from
`base` to `top = base + 10`, for a draw `r` below 1. -/
theorem base_plus_ten_bounds (base top : Nat) (r : Float64) (htop_eq : top = base + 10)
    (hr : r < ofNat 1) (hbase : Representable (base * 2 ^ 1074))
    (htop : Representable (top * 2 ^ 1074)) :
    ofNat base ≤ ofNat base + r * ofNat 10 ∧ ofNat base + r * ofNat 10 ≤ ofNat top := by
  have h10 := representable_consts.1
  rw [lt_def, ofNat_units] at hr
  rw [le_def, le_def, add_units, mul_units, ofNat_units, ofNat_units, ofNat_units]
  generalize hU : 2 ^ 1074 = U at *
  subst htop_eq
  have hmul : roundDyadic (r.units * (10 * U)) 1074 ≤ 10 * U := by
    refine roundDyadic_le (r.units * (10 * U)) 1074 (10 * U) h10 ?_
    rw [hU]
    have : r.units ≤ U := by omega
    calc r.units * (10 * U) ≤ U * (10 * U) := Nat.mul_le_mul_right _ this
      _ = 10 * U * U := by ring
  constructor
  · refine le_roundDyadic _ 0 (base * U) hbase ?_
    omega
  · refine roundDyadic_le _ 0 ((base + 10) * U) htop ?_
    rw [pow_zero, Nat.mul_one, Nat.add_mul]
    omega

theorem fma_units (a b c : Float64) :
    (fma a b c).units = roundDyadic (a.units * b.units + c.units * 2 ^ 1074) 1074 := rfl

/-- The bounds of `base_plus_ten_bounds` also hold when the product and the sum are
fused into one rounding. -/
theorem fma_base_plus_ten_bounds (base top : Nat) (r : Float64) (htop_eq : top = base + 10)
    (hr : r < ofNat 1) (hbase : Representable (base * 2 ^ 1074))
    (htop : Representable (top * 2 ^ 1074)) :
    ofNat base ≤ fma r (ofNat 10) (ofNat base) ∧ fma r (ofNat 10) (ofNat base) ≤ ofNat top := by
  rw [lt_def, ofNat_units] at hr
  rw [le_def, le_def, fma_units, ofNat_units, ofNat_units, ofNat_units]
  generalize hU : 2 ^ 1074 = U at *
  subst htop_eq
  have hprod : r.units * (10 * U) ≤ 10 * U * U := by
    have : r.units ≤ U := by omega
    calc r.units * (10 * U) ≤ U * (10 * U) := Nat.mul_le_mul_right _ this
      _ = 10 * U * U := by ring
  constructor
  · refine le_roundDyadic _ 1074 (base * U) hbase ?_
    rw [hU]
    omega
  · refine roundDyadic_le _ 1074 ((base + 10) * U) htop ?_
    rw [hU]
    have hsplit : (base + 10) * U * U = 10 * U * U + base * U * U := by ring
    omega

/-- With the largest draw below 1 the fused evaluation reaches 52 and 68 as well. -/
theorem fma_maxDraw :
    fma maxDraw (ofNat 10) (ofNat 42) = ofNat 52 ∧
      fma maxDraw (ofNat 10) (ofNat 58) = ofNat 68 := by
  decide!

end Float64

/-! ## Lemmas on the loops of the composer -/

theorem conditionsLoop_eq (cs : List NodeCondition) (ready : Int) :
    conditionsLoop cs ready =
      ready + (if cs.any (fun c => c.Typ == "Ready" && c.Status == "True") then 1 else 0) := by
  induction cs with
  | nil => simp [conditionsLoop]
  | cons c rest ih =>
    unfold conditionsLoop
    by_cases h : c.Typ = NodeReady ∧ c.Status = ConditionTrue
    · rw [if_pos h]
      obtain ⟨h1, h2⟩ := h
      simp [h1, h2, NodeReady, ConditionTrue]
    · rw [if_neg h, ih]
      have hfalse : (c.Typ == "Ready" && c.Status == "True") = false := by
        simpa [NodeReady, ConditionTrue] using h
      simp [hfalse]

theorem nodesLoop_eq (nodes : List Node) (ready : Int) :
    nodesLoop nodes ready = ready + (readyCount nodes : Int) := by
  induction nodes generalizing ready with
  | nil => simp [nodesLoop, readyCount]
  | cons node rest ih =>
    unfold nodesLoop
    rw [ih, conditionsLoop_eq]
    unfold readyCount
    rw [List.countP_cons]
    unfold Node.isReady
    split <;> simp_all
    omega

theorem getDashboardData_nodes (s : Clientset) (ctx : Context) (rnd : Rand) (clk : Clock) :
    (getDashboardData s ctx rnd clk).1.Cluster.Nodes =
      if (s.Nodes ctx).err = none then ((s.Nodes ctx).Items.length : Int) else 0 := by
  by_cases h : (s.Nodes ctx).err = none <;> simp [getDashboardData, h, DashboardData.zero]

theorem getDashboardData_nodesReady (s : Clientset) (ctx : Context) (rnd : Rand)
    (clk : Clock) :
    (getDashboardData s ctx rnd clk).1.Cluster.NodesReady =
      if (s.Nodes ctx).err = none then nodesLoop (s.Nodes ctx).Items 0 else 0 := by
  by_cases h : (s.Nodes ctx).err = none <;> simp [getDashboardData, h, DashboardData.zero]

theorem namespacesLoop_spec (s : Clientset) (ctx : Context) (rnd : Rand) :
    ∀ (items : List Namespace) (st : List NamespaceData × Nat),
      (namespacesLoop s ctx rnd items st).1.map
          (fun d => (d.Name, d.PodCount, d.ServiceCount)) =
        st.1.map (fun d => (d.Name, d.PodCount, d.ServiceCount)) ++
          items.map (fun ns =>
            (ns.Name, (((s.Pods ns.Name ctx).Items.length : Nat) : Int),
              (((s.Services ns.Name ctx).Items.length : Nat) : Int))) ∧
      (namespacesLoop s ctx rnd items st).2 = st.2 + 2 * items.length := by
  intro items
  induction items with
  | nil =>
    intro st
    simp [namespacesLoop]
  | cons ns rest ih =>
    intro st
    unfold namespacesLoop
    obtain ⟨h1, h2⟩ := ih (st.1 ++ [{ Name := ns.Name
                                      PodCount := (s.Pods ns.Name ctx).Items.length
                                      ServiceCount := (s.Services ns.Name ctx).Items.length
                                      CPUUsage := rnd.Float64 st.2 * Float64.ofNat 100
                                      MemoryUsage := rnd.Float64 (st.2 + 1) * Float64.ofNat 100 }],
      st.2 + 2)
    constructor
    · simp only [h1]
      simp
    · simp only [h2, List.length_cons]
      omega

theorem getDashboardData_namespaces (s : Clientset) (ctx : Context) (rnd : Rand)
    (clk : Clock) :
    (getDashboardData s ctx rnd clk).1.Namespaces =
      if (s.Namespaces ctx).err = none then
        (namespacesLoop s ctx rnd (s.Namespaces ctx).Items ([], 0)).1
      else [] := by
  by_cases h : (s.Namespaces ctx).err = none
  · by_cases h2 : (s.Nodes ctx).err = none <;>
      simp [getDashboardData, h, h2, DashboardData.zero]
  · by_cases h2 : (s.Nodes ctx).err = none <;>
      simp [getDashboardData, h, h2, DashboardData.zero]

theorem getDashboardData_namespaces_map (s : Clientset) (ctx : Context) (rnd : Rand)
    (clk : Clock) (hok : (s.Namespaces ctx).err = none) :
    (getDashboardData s ctx rnd clk).1.Namespaces.map
        (fun d => (d.Name, d.PodCount, d.ServiceCount)) =
      (s.Namespaces ctx).Items.map (fun ns =>
        (ns.Name, (((s.Pods ns.Name ctx).Items.length : Nat) : Int),
          (((s.Services ns.Name ctx).Items.length : Nat) : Int))) := by
  have hmap := (namespacesLoop_spec s ctx rnd (s.Namespaces ctx).Items ([], 0)).1
  rw [getDashboardData_namespaces, if_pos hok]
  simpa using hmap

/-! ## Claims -/

/-- C1: in the snapshot built by `getDashboardData`, for every answer of the node
query (any list of nodes, each with any list of conditions, or a failure), the
ready-node count is at most the node count. -/
theorem nodesReady_le_nodes (s : Clientset) (ctx : Context) (rnd : Rand) (clk : Clock) :
    (getDashboardData s ctx rnd clk).1.Cluster.NodesReady ≤
      (getDashboardData s ctx rnd clk).1.Cluster.Nodes := by
  rw [getDashboardData_nodes, getDashboardData_nodesReady]
  split
  · rw [nodesLoop_eq]
    have h : readyCount (s.Nodes ctx).Items ≤ (s.Nodes ctx).Items.length :=
      List.countP_le_length _
    omega
  · exact le_refl _

/-- C2: after a successful node query the snapshot has `nodes` equal to the number
of nodes returned and `nodesReady` equal to the number of nodes that carry at least
one condition of type Ready with status True (each node counted once, a node
whose Ready condition is not True not counted); in the scenario of two nodes of
which one is ready (carrying Ready/True twice) and one has Ready/Unknown, the
snapshot has nodes = 2 and nodesReady = 1. -/
theorem nodes_counts :
    (∀ (s : Clientset) (ctx : Context) (rnd : Rand) (clk : Clock),
      (s.Nodes ctx).err = none →
        (getDashboardData s ctx rnd clk).1.Cluster.Nodes = ((s.Nodes ctx).Items.length : Int) ∧
        (getDashboardData s ctx rnd clk).1.Cluster.NodesReady =
          (readyCount (s.Nodes ctx).Items : Int)) ∧
    (∀ (ctx : Context) (rnd : Rand) (clk : Clock),
      (getDashboardData scenarioCluster.clientset ctx rnd clk).1.Cluster.Nodes = 2 ∧
      (getDashboardData scenarioCluster.clientset ctx rnd clk).1.Cluster.NodesReady = 1) := by
  have hgen : ∀ (s : Clientset) (ctx : Context) (rnd : Rand) (clk : Clock),
      (s.Nodes ctx).err = none →
        (getDashboardData s ctx rnd clk).1.Cluster.Nodes = ((s.Nodes ctx).Items.length : Int) ∧
        (getDashboardData s ctx rnd clk).1.Cluster.NodesReady =
          (readyCount (s.Nodes ctx).Items : Int) := by
    intro s ctx rnd clk hok
    rw [getDashboardData_nodes, getDashboardData_nodesReady, if_pos hok, if_pos hok,
      nodesLoop_eq]
    simp
  refine ⟨hgen, ?_⟩
  intro ctx rnd clk
  obtain ⟨h1, h2⟩ := hgen scenarioCluster.clientset ctx rnd clk rfl
  rw [h1, h2]
  exact ⟨rfl, rfl⟩

/-- Witness for C2: the general statement applied to the scenario client. -/
theorem nodes_counts_witness :
    (scenarioCluster.clientset.Nodes Context.Background).err = none ∧
    (getDashboardData scenarioCluster.clientset Context.Background zeroRand
        epochClock).1.Cluster.Nodes = 2 ∧
    (getDashboardData scenarioCluster.clientset Context.Background zeroRand
        epochClock).1.Cluster.NodesReady = 1 := by
  obtain ⟨h1, h2⟩ :=
    nodes_counts.1 scenarioCluster.clientset Context.Background zeroRand epochClock rfl
  refine ⟨rfl, ?_, ?_⟩
  · rw [h1]
    decide
  · rw [h2]
    decide

/-- C3: after a successful namespace query the snapshot has one namespace record per
returned namespace, in the order returned; the i-th record carries the name of the
i-th namespace and, as pod and service counts, the number of items returned by the
pod query and by the service query for that namespace. In the scenario of the
single namespace default with 3 pods and 1 service, the records are exactly one
record with name default, podCount 3, serviceCount 1. -/
theorem namespaces_records :
    (∀ (s : Clientset) (ctx : Context) (rnd : Rand) (clk : Clock),
      (s.Namespaces ctx).err = none →
        (getDashboardData s ctx rnd clk).1.Namespaces.length = (s.Namespaces ctx).Items.length ∧
        (getDashboardData s ctx rnd clk).1.Namespaces.map
            (fun d => (d.Name, d.PodCount, d.ServiceCount)) =
          (s.Namespaces ctx).Items.map (fun ns =>
            (ns.Name, (((s.Pods ns.Name ctx).Items.length : Nat) : Int),
              (((s.Services ns.Name ctx).Items.length : Nat) : Int)))) ∧
    (∀ (ctx : Context) (rnd : Rand) (clk : Clock),
      (getDashboardData scenarioCluster.clientset ctx rnd clk).1.Namespaces.map
          (fun d => (d.Name, d.PodCount, d.ServiceCount)) = [("default", 3, 1)]) := by
  refine ⟨?_, ?_⟩
  · intro s ctx rnd clk hok
    have hmap := getDashboardData_namespaces_map s ctx rnd clk hok
    refine ⟨?_, hmap⟩
    have hlen := congrArg List.length hmap
    simpa using hlen
  · intro ctx rnd clk
    rw [getDashboardData_namespaces_map scenarioCluster.clientset ctx rnd clk rfl]
    rfl

/-- Witness for C3: the general statement applied to the scenario client. -/
theorem namespaces_records_witness :
    (scenarioCluster.clientset.Namespaces Context.Background).err = none ∧
    (getDashboardData scenarioCluster.clientset Context.Background zeroRand
        epochClock).1.Namespaces.length = 1 ∧
    (getDashboardData scenarioCluster.clientset Context.Background zeroRand
        epochClock).1.Namespaces.map (fun d => (d.Name, d.PodCount, d.ServiceCount)) =
      [("default", 3, 1)] :=
  have h := namespaces_records.1 scenarioCluster.clientset Context.Background zeroRand
    epochClock rfl
  ⟨rfl, h.1, h.2.trans rfl⟩

/-! ### Service list -/

theorem servicesLoop_length (rnd : Rand) :
    ∀ (items : List Service) (st : List ServiceMetrics × Nat),
      (servicesLoop rnd items st).1.length = st.1.length + items.length := by
  intro items
  induction items with
  | nil =>
    intro st
    simp [servicesLoop]
  | cons svc rest ih =>
    intro st
    unfold servicesLoop
    rw [ih]
    simp only [List.length_append, List.length_cons, List.length_nil]
    omega

theorem servicesLoop_spec (rnd : Rand) (hI : rnd.BoundedInts) :
    ∀ (items : List Service) (st : List ServiceMetrics × Nat),
      ∃ ext, (servicesLoop rnd items st).1 = st.1 ++ ext ∧
        List.Forall₂
          (fun (svc : Service) (e : ServiceMetrics) =>
            e.Name = svc.Namespace ++ "/" ++ svc.Name ∧ e.Status = "healthy" ∧
              50 ≤ e.P95Latency ∧ e.P95Latency < 550 ∧
              100 ≤ e.RequestsPerSec ∧ e.RequestsPerSec < 1100)
          items ext := by
  intro items
  induction items with
  | nil =>
    intro st
    exact ⟨[], by simp [servicesLoop], List.Forall₂.nil⟩
  | cons svc rest ih =>
    intro st
    have key : ∀ entry : ServiceMetrics,
        (entry.Name = svc.Namespace ++ "/" ++ svc.Name ∧ entry.Status = "healthy" ∧
          50 ≤ entry.P95Latency ∧ entry.P95Latency < 550 ∧
          100 ≤ entry.RequestsPerSec ∧ entry.RequestsPerSec < 1100) →
        ∃ ext, (servicesLoop rnd rest (st.1 ++ [entry], st.2 + 3)).1 = st.1 ++ ext ∧
          List.Forall₂
            (fun (svc : Service) (e : ServiceMetrics) =>
              e.Name = svc.Namespace ++ "/" ++ svc.Name ∧ e.Status = "healthy" ∧
                50 ≤ e.P95Latency ∧ e.P95Latency < 550 ∧
                100 ≤ e.RequestsPerSec ∧ e.RequestsPerSec < 1100)
            (svc :: rest) ext := by
      intro entry hentry
      obtain ⟨ext, hext, hall⟩ := ih (st.1 ++ [entry], st.2 + 3)
      refine ⟨entry :: ext, ?_, List.Forall₂.cons hentry hall⟩
      rw [hext]
      simp
    have h1 := hI (st.2 + 1) 500 (by norm_num)
    have h2 := hI (st.2 + 2) 1000 (by norm_num)
    unfold servicesLoop
    refine key _ ⟨rfl, rfl, ?_, ?_, ?_, ?_⟩ <;> simp only <;> omega

theorem sampleServices_length : sampleServices.length = 5 := rfl

theorem min_five_toNat (n : Nat) : (BatteriesApi.min 5 (n : Int)).toNat = Nat.min 5 n := by
  unfold BatteriesApi.min
  by_cases h : (5 : Int) < n
  · rw [if_pos h]
    have h5 : 5 ≤ n := by omega
    simp [Nat.min_def, h5]
  · rw [if_neg h]
    have h5 : n ≤ 5 := by omega
    simp only [Int.toNat_ofNat, Nat.min_def]
    split <;> omega

theorem take_min_five_toNat {α : Type} (l : List α) :
    l.take (BatteriesApi.min 5 (l.length : Int)).toNat = l.take 5 := by
  rw [min_five_toNat]
  by_cases h : 5 ≤ l.length
  · rw [show Nat.min 5 l.length = 5 from Nat.min_eq_left h]
  · have hle : l.length ≤ 5 := by omega
    rw [show Nat.min 5 l.length = l.length from Nat.min_eq_right hle, List.take_length,
      List.take_of_length_le hle]

theorem handleServices_services_length (s : Clientset) (r : Request) (rnd : Rand) :
    (handleServices.services s r rnd).length =
      5 + Nat.min 5
        (if (s.Services "" r.Context).err = none then
          (s.Services "" r.Context).Items.length else 0) := by
  unfold handleServices.services
  simp only []
  by_cases hok : (s.Services "" r.Context).err = none
  · by_cases hpos : ((s.Services "" r.Context).Items.length : Int) > 0
    · rw [if_pos ⟨hok, hpos⟩, if_pos hok, servicesLoop_length, take_min_five_toNat,
        List.length_take, sampleServices_length]
    · rw [if_neg (fun h => hpos h.2), if_pos hok, sampleServices_length]
      have h0 : (s.Services "" r.Context).Items.length = 0 := by omega
      rw [h0]
      rfl
  · rw [if_neg (fun h => hok h.1), if_neg hok, sampleServices_length]
    rfl

theorem handleServices_services_ne_nil (s : Clientset) (r : Request) (rnd : Rand) :
    5 ≤ (handleServices.services s r rnd).length := by
  rw [handleServices_services_length]
  exact Nat.le_add_right _ _

theorem handleServices_body (s : Clientset) (r : Request) (rnd : Rand) :
    (handleServices s r rnd).Body =
      Body.json (JSON.arr ((handleServices.services s r rnd).map ServiceMetrics.toJSON)) := by
  have hlen := handleServices_services_ne_nil s r rnd
  unfold handleServices JSON.ofSlice
  cases hs : handleServices.services s r rnd with
  | nil =>
    rw [hs] at hlen
    simp only [List.length_nil] at hlen
    omega
  | cons a rest => rfl

/-- C4: whatever the cluster service query answers, the list built by
`handleServices` has exactly 5 + min(5, n) entries, where n is the number of
services returned (0 when the query fails) and min is the minimum of natural
numbers; so it has at least 5 and at most 10 entries, exactly 5 when the query
fails or returns nothing, 5 + n for n ≤ 5 and 10 for n ≥ 5; the JSON array written
has that many elements. With 3 services returned the list has 8 entries, with 7
it has 10. -/
theorem services_length :
    (∀ (s : Clientset) (r : Request) (rnd : Rand),
      (handleServices.services s r rnd).length =
          5 + Nat.min 5
            (if (s.Services "" r.Context).err = none then
              (s.Services "" r.Context).Items.length else 0) ∧
        5 ≤ (handleServices.services s r rnd).length ∧
        (handleServices.services s r rnd).length ≤ 10 ∧
        ((s.Services "" r.Context).err ≠ none →
          (handleServices.services s r rnd).length = 5) ∧
        ((s.Services "" r.Context).err = none →
          (s.Services "" r.Context).Items.length ≤ 5 →
          (handleServices.services s r rnd).length =
            5 + (s.Services "" r.Context).Items.length) ∧
        ((s.Services "" r.Context).err = none →
          5 ≤ (s.Services "" r.Context).Items.length →
          (handleServices.services s r rnd).length = 10) ∧
        ∃ elems, (handleServices s r rnd).Body = Body.json (JSON.arr elems) ∧
          elems.length = (handleServices.services s r rnd).length) ∧
    (∀ (r : Request) (rnd : Rand),
      (handleServices.services smallCluster.clientset r rnd).length = 8 ∧
      (handleServices.services busyCluster.clientset r rnd).length = 10) := by
  refine ⟨?_, ?_⟩
  · intro s r rnd
    have hlen := handleServices_services_length s r rnd
    have hmin : Nat.min 5
        (if (s.Services "" r.Context).err = none then
          (s.Services "" r.Context).Items.length else 0) ≤ 5 := Nat.min_le_left _ _
    refine ⟨hlen, by omega, by omega, ?_, ?_, ?_, _, handleServices_body s r rnd, by simp⟩
    · intro hne
      rw [hlen, if_neg hne]
      rfl
    · intro hok hle
      rw [hlen, if_pos hok, show Nat.min 5 _ = _ from Nat.min_eq_right hle]
    · intro hok hge
      rw [hlen, if_pos hok, show Nat.min 5 _ = 5 from Nat.min_eq_left hge]
  · intro r rnd
    constructor
    · rw [handleServices_services_length]
      rfl
    · rw [handleServices_services_length]
      rfl

/-- Witness for C4: the general statement applied to the client that returns three
services. -/
theorem services_length_witness :
    (smallCluster.clientset.Services "" (Request.Context ⟨false⟩)).err = none ∧
    (smallCluster.clientset.Services "" (Request.Context ⟨false⟩)).Items.length = 3 ∧
    (handleServices.services smallCluster.clientset ⟨false⟩ zeroRand).length = 5 + 3 :=
  ⟨rfl, rfl, (services_length.1 smallCluster.clientset ⟨false⟩ zeroRand).2.2.2.2.1 rfl
    (by decide)⟩

/-- C10: whatever the cluster service query answers, the first five entries of the
list built by `handleServices` are the fixed sample entries auth-service (0.8,
234, 1200, healthy), data-processor (0.02, 845, 450, healthy), webhook-handler
(0.5, 123, 890, degraded), api-gateway (0.01, 89, 3400, healthy), ml-inference
(0.03, 567, 230, healthy) in that order; when the query fails or returns no
service the list is exactly those five entries; otherwise the entries after the
fifth are as many as the first five services returned (min(5, n) of them) and
correspond to them one by one, in the order returned, each named namespace/name
with status healthy, p95Latency in [50, 550) and requestsPerSec in [100, 1100). -/
theorem services_entries (s : Clientset) (r : Request) (rnd : Rand)
    (hI : rnd.BoundedInts) :
    (handleServices.services s r rnd).take 5 =
        [⟨"auth-service", Float64.lit 0x1999999999999a 53, 234, 1200, "healthy"⟩,
          ⟨"data-processor", Float64.lit 0x147ae147ae147b 58, 845, 450, "healthy"⟩,
          ⟨"webhook-handler", Float64.lit 1 1, 123, 890, "degraded"⟩,
          ⟨"api-gateway", Float64.lit 0x147ae147ae147b 59, 89, 3400, "healthy"⟩,
          ⟨"ml-inference", Float64.lit 0x1eb851eb851eb8 58, 567, 230, "healthy"⟩] ∧
      (((s.Services "" r.Context).err ≠ none ∨ (s.Services "" r.Context).Items = []) →
        handleServices.services s r rnd =
          [⟨"auth-service", Float64.lit 0x1999999999999a 53, 234, 1200, "healthy"⟩,
            ⟨"data-processor", Float64.lit 0x147ae147ae147b 58, 845, 450, "healthy"⟩,
            ⟨"webhook-handler", Float64.lit 1 1, 123, 890, "degraded"⟩,
            ⟨"api-gateway", Float64.lit 0x147ae147ae147b 59, 89, 3400, "healthy"⟩,
            ⟨"ml-inference", Float64.lit 0x1eb851eb851eb8 58, 567, 230, "healthy"⟩]) ∧
      ((s.Services "" r.Context).err = none →
        ((handleServices.services s r rnd).drop 5).length =
          Nat.min 5 (s.Services "" r.Context).Items.length ∧
        List.Forall₂
          (fun (svc : Service) (e : ServiceMetrics) =>
            e.Name = svc.Namespace ++ "/" ++ svc.Name ∧ e.Status = "healthy" ∧
              50 ≤ e.P95Latency ∧ e.P95Latency < 550 ∧
              100 ≤ e.RequestsPerSec ∧ e.RequestsPerSec < 1100)
          ((s.Services "" r.Context).Items.take 5)
          ((handleServices.services s r rnd).drop 5)) := by
  have hsample : sampleServices =
      [⟨"auth-service", Float64.lit 0x1999999999999a 53, 234, 1200, "healthy"⟩,
        ⟨"data-processor", Float64.lit 0x147ae147ae147b 58, 845, 450, "healthy"⟩,
        ⟨"webhook-handler", Float64.lit 1 1, 123, 890, "degraded"⟩,
        ⟨"api-gateway", Float64.lit 0x147ae147ae147b 59, 89, 3400, "healthy"⟩,
        ⟨"ml-inference", Float64.lit 0x1eb851eb851eb8 58, 567, 230, "healthy"⟩] := rfl
  rw [← hsample]
  by_cases hok : (s.Services "" r.Context).err = none
  · by_cases hpos : ((s.Services "" r.Context).Items.length : Int) > 0
    · obtain ⟨ext, hext, hall⟩ := servicesLoop_spec rnd hI
        ((s.Services "" r.Context).Items.take
          (BatteriesApi.min 5 (s.Services "" r.Context).Items.length).toNat)
        (sampleServices, 0)
      rw [take_min_five_toNat] at hall
      have hval : handleServices.services s r rnd = sampleServices ++ ext := by
        unfold handleServices.services
        simp only []
        rw [if_pos ⟨hok, hpos⟩]
        exact hext
      have hne : (s.Services "" r.Context).Items ≠ [] := by
        intro h
        rw [h] at hpos
        simp at hpos
      have hdrop : (handleServices.services s r rnd).drop 5 = ext := by
        rw [hval, ← sampleServices_length, List.drop_left]
      refine ⟨?_, ?_, ?_⟩
      · rw [hval, ← sampleServices_length, List.take_left]
      · rintro (h | h)
        · exact absurd hok h
        · exact absurd h hne
      · intro _
        rw [hdrop]
        refine ⟨?_, hall⟩
        rw [← hall.length_eq, List.length_take]
    · have hval : handleServices.services s r rnd = sampleServices := by
        unfold handleServices.services
        simp only []
        rw [if_neg (fun h => hpos h.2)]
      have h0 : (s.Services "" r.Context).Items = [] := by
        apply List.eq_nil_of_length_eq_zero
        omega
      refine ⟨?_, fun _ => hval, ?_⟩
      · rw [hval]
        rfl
      · intro _
        rw [hval, h0]
        exact ⟨rfl, List.Forall₂.nil⟩
  · have hval : handleServices.services s r rnd = sampleServices := by
      unfold handleServices.services
      simp only []
      rw [if_neg (fun h => hok h.1)]
    refine ⟨?_, fun _ => hval, fun h => absurd h hok⟩
    rw [hval]
    rfl

/-! ### Failed queries -/

theorem getDashboardData_err (s : Clientset) (ctx : Context) (rnd : Rand) (clk : Clock) :
    (getDashboardData s ctx rnd clk).2 = none := rfl

theorem handleDashboard_status (s : Clientset) (r : Request) (rnd : Rand) (clk : Clock) :
    (handleDashboard s r rnd clk).Status = 200 := by
  unfold handleDashboard
  simp only [getDashboardData_err]

/-- C5 (the code departs from it): evaluation of `getDashboardData` on a cluster
whose node query and whose pod query for default fail with items already decoded.
The error returned is nil and `handleDashboard` answers 200; the failed node query
gives nodes = 0 and nodesReady = 0, because its block is guarded by `err == nil`;
but the failed pod query, whose error is discarded, gives podCount = 3 where the
same query replaced by a successful query returning zero items gives podCount = 0. -/
theorem failed_pod_query_is_counted :
    truncatedCluster.nodes.err ≠ none ∧
    (truncatedCluster.pods "default").err ≠ none ∧
    (truncatedCluster.pods "default").Items.length = 3 ∧
    (getDashboardData truncatedCluster.clientset Context.Background zeroRand
      epochClock).2 = none ∧
    (handleDashboard truncatedCluster.clientset ⟨false⟩ zeroRand epochClock).Status = 200 ∧
    (getDashboardData truncatedCluster.clientset Context.Background zeroRand
      epochClock).1.Cluster.Nodes = 0 ∧
    (getDashboardData truncatedCluster.clientset Context.Background zeroRand
      epochClock).1.Cluster.NodesReady = 0 ∧
    (getDashboardData truncatedCluster.clientset Context.Background zeroRand
        epochClock).1.Namespaces.map (fun d => (d.Name, d.PodCount, d.ServiceCount)) =
      [("default", 3, 1)] ∧
    (getDashboardData truncatedAsEmpty.clientset Context.Background zeroRand
        epochClock).1.Namespaces.map (fun d => (d.Name, d.PodCount, d.ServiceCount)) =
      [("default", 0, 1)] ∧
    getDashboardData truncatedCluster.clientset Context.Background zeroRand epochClock ≠
      getDashboardData truncatedAsEmpty.clientset Context.Background zeroRand epochClock := by
  decide!

/-! ### Snapshot for an empty cluster -/

theorem getDashboardData_cpu (s : Clientset) (ctx : Context) (rnd : Rand) (clk : Clock) :
    ∃ i, (getDashboardData s ctx rnd clk).1.Cluster.CPUUsage =
        Float64.ofNat 42 + rnd.Float64 i * Float64.ofNat 10 ∧
      (getDashboardData s ctx rnd clk).1.Cluster.MemoryUsage =
        Float64.ofNat 58 + rnd.Float64 (i + 1) * Float64.ofNat 10 :=
  ⟨_, rfl, rfl⟩

/-- Counterexample for C6: every query returns zero items and every random value
drawn is the binary64 value `1 - 2^-53`, which lies in [0, 1); the product with
10 rounds to `10 - 2^-49` and the sums with 42 and 58 round to 52 and 68, so
`cluster.cpuUsage = 52` is not below 52 and `cluster.memoryUsage = 68` is not
below 68. -/
theorem empty_cluster_cpu_reaches_52 :
    Float64.Representable maxDraw.units ∧ maxDraw < Float64.ofNat 1 ∧
    (emptyCluster.clientset.Nodes Context.Background).Items = [] ∧
    (emptyCluster.clientset.Namespaces Context.Background).Items = [] ∧
    maxDraw * Float64.ofNat 10 = Float64.lit (10 * 2 ^ 49 - 1) 49 ∧
    (getDashboardData emptyCluster.clientset Context.Background maxRand
      epochClock).1.Cluster.CPUUsage = Float64.ofNat 52 ∧
    ¬ ((getDashboardData emptyCluster.clientset Context.Background maxRand
      epochClock).1.Cluster.CPUUsage < Float64.ofNat 52) ∧
    (getDashboardData emptyCluster.clientset Context.Background maxRand
      epochClock).1.Cluster.MemoryUsage = Float64.ofNat 68 ∧
    ¬ ((getDashboardData emptyCluster.clientset Context.Background maxRand
      epochClock).1.Cluster.MemoryUsage < Float64.ofNat 68) := by
  decide!

/-- C6 (amended): when the node query and the namespace query return zero items,
for every random source whose values lie in [0, 1) and every clock,
`getDashboardData` returns a nil error and a snapshot with nodes = 0,
nodesReady = 0, no namespace record, every fixed section populated (installations
3/2/1/0, services total 47, databases total 8, security status OK, the 3
projects, the 2 alerts, the 3 recent-activity entries deployment, scaling,
backup in that order), `cluster.cpuUsage` in the closed interval [42, 52] and
`cluster.memoryUsage` in the closed interval [58, 68]. -/
theorem empty_cluster_snapshot (s : Clientset) (ctx : Context) (rnd : Rand) (clk : Clock)
    (hnodes : (s.Nodes ctx).Items = []) (hns : (s.Namespaces ctx).Items = [])
    (hr : rnd.UnitFloats) :
    (getDashboardData s ctx rnd clk).2 = none ∧
    (getDashboardData s ctx rnd clk).1.Cluster.Nodes = 0 ∧
    (getDashboardData s ctx rnd clk).1.Cluster.NodesReady = 0 ∧
    (getDashboardData s ctx rnd clk).1.Namespaces = [] ∧
    (getDashboardData s ctx rnd clk).1.Installations = ⟨3, 2, 1, 0⟩ ∧
    (getDashboardData s ctx rnd clk).1.Services =
      ⟨47, Float64.lit 0x18cccccccccccd 46, Float64.lit 0x147ae147ae147b 58, 145, 3⟩ ∧
    (getDashboardData s ctx rnd clk).1.Databases = ⟨8, true, "Completed", 0, 2⟩ ∧
    (getDashboardData s ctx rnd clk).1.Security = ⟨"OK", true, true, 82⟩ ∧
    (getDashboardData s ctx rnd clk).1.Projects =
      [⟨"batteries-core", "v2.1.0", "Running", "Healthy", "Stable"⟩,
        ⟨"ml-workspace", "v1.0.0", "Deploying", "Degraded", "In Progress"⟩,
        ⟨"api-gateway", "v1.8.3", "Running", "Healthy", "Stable"⟩] ∧
    (getDashboardData s ctx rnd clk).1.Alerts =
      [⟨"warning", "medium", "High Memory Usage", "mongo-analytics",
          clk.Now 0 - 15 * 60 * 1000000000⟩,
        ⟨"info", "low", "Scheduled Maintenance", "system",
          clk.Now 1 - 2 * 3600 * 1000000000⟩] ∧
    (getDashboardData s ctx rnd clk).1.RecentActivity =
      [⟨"deployment", "Deployment completed", clk.Now 2 - 5 * 60 * 1000000000⟩,
        ⟨"scaling", "Auto-scaling triggered", clk.Now 3 - 12 * 60 * 1000000000⟩,
        ⟨"backup", "Backup completed", clk.Now 4 - 2 * 3600 * 1000000000⟩] ∧
    Float64.ofNat 42 ≤ (getDashboardData s ctx rnd clk).1.Cluster.CPUUsage ∧
    (getDashboardData s ctx rnd clk).1.Cluster.CPUUsage ≤ Float64.ofNat 52 ∧
    Float64.ofNat 58 ≤ (getDashboardData s ctx rnd clk).1.Cluster.MemoryUsage ∧
    (getDashboardData s ctx rnd clk).1.Cluster.MemoryUsage ≤ Float64.ofNat 68 := by
  obtain ⟨i, hcpu, hmem⟩ := getDashboardData_cpu s ctx rnd clk
  obtain ⟨_, h42, h52, h58, h68⟩ := Float64.representable_consts
  have hc := Float64.base_plus_ten_bounds 42 52 (rnd.Float64 i) rfl (hr i) h42 h52
  have hm := Float64.base_plus_ten_bounds 58 68 (rnd.Float64 (i + 1)) rfl (hr (i + 1)) h58 h68
  refine ⟨rfl, ?_, ?_, ?_, rfl, rfl, rfl, rfl, rfl, ?_, ?_, ?_, ?_, ?_, ?_⟩
  · rw [getDashboardData_nodes, hnodes]
    simp
  · rw [getDashboardData_nodesReady, hnodes]
    simp [nodesLoop]
  · rw [getDashboardData_namespaces, hns]
    simp [namespacesLoop]
  · simp only [getDashboardData, Time.Add, Hour, Minute, Second]
    simp only [List.cons.injEq, AlertData.mk.injEq, true_and, and_true]
    constructor <;> ring
  · simp only [getDashboardData, Time.Add, Hour, Minute, Second]
    simp only [List.cons.injEq, ActivityData.mk.injEq, true_and, and_true]
    refine ⟨?_, ?_, ?_⟩ <;> ring
  · rw [hcpu]
    exact hc.1
  · rw [hcpu]
    exact hc.2
  · rw [hmem]
    exact hm.1
  · rw [hmem]
    exact hm.2

/-- Witness for C6 (amended): the empty cluster with the random source that always
yields `1 - 2^-53`; the upper bounds are then attained. -/
theorem empty_cluster_snapshot_witness :
    (emptyCluster.clientset.Nodes Context.Background).Items = [] ∧
    (emptyCluster.clientset.Namespaces Context.Background).Items = [] ∧
    maxRand.UnitFloats ∧
    (getDashboardData emptyCluster.clientset Context.Background maxRand
      epochClock).1.Cluster.CPUUsage ≤ Float64.ofNat 52 ∧
    (getDashboardData emptyCluster.clientset Context.Background maxRand
      epochClock).1.Cluster.MemoryUsage ≤ Float64.ofNat 68 :=
  have hr : maxRand.UnitFloats := fun _ => (by decide! : maxDraw < Float64.ofNat 1)
  have h := empty_cluster_snapshot emptyCluster.clientset Context.Background maxRand
    epochClock rfl rfl hr
  ⟨rfl, rfl, hr, h.2.2.2.2.2.2.2.2.2.2.2.2.1, h.2.2.2.2.2.2.2.2.2.2.2.2.2.2⟩

/-! ### Push loop -/

theorem handleWebSocket_tick_succ (env : WsEnv) (r : Request) (n : Nat) :
    handleWebSocket env r (List.replicate (n + 1) Event.tick) =
      handleWebSocket.step env (handleWebSocket env r (List.replicate n Event.tick))
        Event.tick := by
  unfold handleWebSocket
  rw [List.replicate_succ', List.foldl_append]
  rfl

theorem handleWebSocket_ticks (env : WsEnv) (r : Request) (k : Nat) (hk : 1 ≤ k)
    (hup : env.upgradeOk = true) (hok : ∀ i, i + 1 < k → env.writeOk i = true)
    (hfail : env.writeOk (k - 1) = false) (n : Nat) :
    handleWebSocket env r (List.replicate n Event.tick) =
      if n < k then
        ⟨Phase.Waiting, r, n, List.replicate n Context.Background, n,
          (List.range n).map env.snapshot, false, false⟩
      else
        ⟨Phase.Closed, r, k, List.replicate k Context.Background, k,
          (List.range (k - 1)).map env.snapshot, true, true⟩ := by
  induction n with
  | zero =>
    have h0 : 0 < k := hk
    simp [handleWebSocket, handleWebSocket.start, hup, h0]
  | succ n ih =>
    rw [handleWebSocket_tick_succ, ih]
    by_cases h1 : n + 1 < k
    · have h2 : n < k := by omega
      rw [if_pos h2, if_pos h1]
      simp [handleWebSocket.step, getDashboardData_err, hok n h1, List.replicate_succ',
        List.range_succ, WsEnv.snapshot]
    · by_cases h2 : n < k
      · obtain rfl : k = n + 1 := by omega
        rw [if_pos h2, if_neg h1]
        have hw : env.writeOk n = false := hfail
        simp [handleWebSocket.step, getDashboardData_err, hw, List.replicate_succ']
      · rw [if_neg h2, if_neg h1]
        simp [handleWebSocket.step]

/-- C7: with a connection whose k-th write fails (k ≥ 1, the earlier ones
succeeding), after n ticks with n < k the loop is still waiting and has made
exactly n compositions and n successful sends, one per tick (the snapshots
composed at those ticks); after n ≥ k ticks the handler has returned (Closed,
ticker stopped, connection closed) having delivered exactly the first k - 1
snapshots, with k compositions and k write calls in all, whatever n is. -/
theorem push_loop_failing_send (env : WsEnv) (r : Request) (k : Nat) (hk : 1 ≤ k)
    (hup : env.upgradeOk = true) (hok : ∀ i, i + 1 < k → env.writeOk i = true)
    (hfail : env.writeOk (k - 1) = false) (n : Nat) :
    (n < k →
      (handleWebSocket env r (List.replicate n Event.tick)).phase = Phase.Waiting ∧
      (handleWebSocket env r (List.replicate n Event.tick)).sent =
        (List.range n).map env.snapshot ∧
      (handleWebSocket env r (List.replicate n Event.tick)).sent.length = n ∧
      (handleWebSocket env r (List.replicate n Event.tick)).writes = n ∧
      (handleWebSocket env r (List.replicate n Event.tick)).composed.length = n ∧
      (handleWebSocket env r (List.replicate n Event.tick)).tickerStopped = false ∧
      (handleWebSocket env r (List.replicate n Event.tick)).connClosed = false) ∧
    (k ≤ n →
      (handleWebSocket env r (List.replicate n Event.tick)).phase = Phase.Closed ∧
      (handleWebSocket env r (List.replicate n Event.tick)).sent =
        (List.range (k - 1)).map env.snapshot ∧
      (handleWebSocket env r (List.replicate n Event.tick)).sent.length = k - 1 ∧
      (handleWebSocket env r (List.replicate n Event.tick)).writes = k ∧
      (handleWebSocket env r (List.replicate n Event.tick)).composed.length = k ∧
      (handleWebSocket env r (List.replicate n Event.tick)).tickerStopped = true ∧
      (handleWebSocket env r (List.replicate n Event.tick)).connClosed = true) := by
  rw [handleWebSocket_ticks env r k hk hup hok hfail n]
  constructor
  · intro h
    rw [if_pos h]
    simp
  · intro h
    rw [if_neg (by omega)]
    simp

/-- Witness for C7 with k = 3: over a connection whose third write fails, five ticks
leave the handler closed after exactly 2 successful sends, 3 compositions and 3
write calls. -/
theorem push_loop_failing_send_witness :
    thirdWriteFails.upgradeOk = true ∧ thirdWriteFails.writeOk 0 = true ∧
    thirdWriteFails.writeOk 1 = true ∧ thirdWriteFails.writeOk 2 = false ∧
    (handleWebSocket thirdWriteFails ⟨false⟩ (List.replicate 5 Event.tick)).phase =
      Phase.Closed ∧
    (handleWebSocket thirdWriteFails ⟨false⟩ (List.replicate 5 Event.tick)).sent.length = 2 ∧
    (handleWebSocket thirdWriteFails ⟨false⟩ (List.replicate 5 Event.tick)).writes = 3 ∧
    (handleWebSocket thirdWriteFails ⟨false⟩ (List.replicate 5 Event.tick)).composed.length
      = 3 :=
  have h := (push_loop_failing_send thirdWriteFails ⟨false⟩ 3 (by decide) rfl
    (fun i hi => decide_eq_true (by omega : i < 2)) rfl 5).2 (by decide)
  ⟨rfl, rfl, rfl, rfl, h.1, h.2.2.1, h.2.2.2.1, h.2.2.2.2.1⟩

theorem step_composed_background (env : WsEnv) (st : WsState) (e : Event)
    (h : ∀ ctx ∈ st.composed, ctx = Context.Background) :
    ∀ ctx ∈ (handleWebSocket.step env st e).composed, ctx = Context.Background := by
  cases e with
  | cancel => exact h
  | tick =>
    unfold handleWebSocket.step
    cases hp : st.phase with
    | Closed => simpa [hp] using h
    | Waiting =>
      simp only [getDashboardData_err]
      split <;> intro ctx hctx <;> simp only [List.mem_append, List.mem_singleton] at hctx <;>
        rcases hctx with hctx | hctx
      · exact h ctx hctx
      · exact hctx
      · exact h ctx hctx
      · exact hctx

theorem foldl_composed_background (env : WsEnv) :
    ∀ (events : List Event) (st : WsState),
      (∀ ctx ∈ st.composed, ctx = Context.Background) →
      ∀ ctx ∈ (events.foldl (handleWebSocket.step env) st).composed,
        ctx = Context.Background := by
  intro events
  induction events with
  | nil =>
    intro st h
    exact h
  | cons e rest ih =>
    intro st h
    exact ih _ (step_composed_background env st e h)

/-- Counterexample for C8: over a connection whose writes all succeed and a cluster
client that aborts its calls when their context is cancelled, cancelling the
request while the loop waits leaves it waiting; at the next tick the composer is
given `context.Background()`, which differs from the (cancelled) context of the
request and is not cancelled, so the cluster calls run to completion (the
snapshot sent has nodes = 2), whereas under the request context they would have
aborted (nodes = 0). -/
theorem cancel_leaves_loop_waiting :
    (handleWebSocket steadyConnection ⟨false⟩ []).phase = Phase.Waiting ∧
    (handleWebSocket steadyConnection ⟨false⟩ [Event.cancel]).request.cancelled = true ∧
    (handleWebSocket steadyConnection ⟨false⟩ [Event.cancel]).phase = Phase.Waiting ∧
    (handleWebSocket steadyConnection ⟨false⟩ [Event.cancel]).phase ≠ Phase.Closed ∧
    (handleWebSocket steadyConnection ⟨false⟩ [Event.cancel, Event.tick]).phase =
      Phase.Waiting ∧
    (handleWebSocket steadyConnection ⟨false⟩ [Event.cancel, Event.tick]).composed =
      [Context.Background] ∧
    (handleWebSocket steadyConnection ⟨false⟩ [Event.cancel, Event.tick]).request.Context =
      Context.ofRequest true ∧
    Context.Background ≠ Context.ofRequest true ∧
    Context.Background.Err = none ∧
    (Context.ofRequest true).Err ≠ none ∧
    (handleWebSocket steadyConnection ⟨false⟩ [Event.cancel, Event.tick]).sent.map
      (fun d => d.Cluster.Nodes) = [2] ∧
    (getDashboardData (steadyConnection.client 0) (Context.ofRequest true)
      (steadyConnection.rand 0) (steadyConnection.clock 0)).1.Cluster.Nodes = 0 := by
  decide!

/-- C8 (amended): in the push loop of `handleWebSocket`, cancellation of the
request context changes nothing but the request itself: the control state,
counters, delivered snapshots and deferred calls are as before, so the loop
waits on; a waiting loop becomes Closed only on a tick whose write fails; every
context handed to the composer, and through it to the cluster calls, is
`context.Background()`, which is never cancelled; and what a tick does is the same
whether or not the request has been cancelled. -/
theorem push_loop_ignores_cancellation (env : WsEnv) (r : Request) :
    (∀ st : WsState,
      (handleWebSocket.step env st Event.cancel).phase = st.phase ∧
      (handleWebSocket.step env st Event.cancel).ticks = st.ticks ∧
      (handleWebSocket.step env st Event.cancel).composed = st.composed ∧
      (handleWebSocket.step env st Event.cancel).writes = st.writes ∧
      (handleWebSocket.step env st Event.cancel).sent = st.sent ∧
      (handleWebSocket.step env st Event.cancel).tickerStopped = st.tickerStopped ∧
      (handleWebSocket.step env st Event.cancel).connClosed = st.connClosed) ∧
    (∀ (st : WsState) (e : Event), st.phase = Phase.Waiting →
      (handleWebSocket.step env st e).phase = Phase.Closed →
        e = Event.tick ∧ env.writeOk st.writes = false) ∧
    (∀ events : List Event, ∀ ctx ∈ (handleWebSocket env r events).composed,
      ctx = Context.Background ∧ ctx.Err = none) ∧
    (∀ (st : WsState) (r2 : Request),
      (handleWebSocket.step env { st with request := r2 } Event.tick).phase =
        (handleWebSocket.step env st Event.tick).phase ∧
      (handleWebSocket.step env { st with request := r2 } Event.tick).sent =
        (handleWebSocket.step env st Event.tick).sent) := by
  refine ⟨fun st => ⟨rfl, rfl, rfl, rfl, rfl, rfl, rfl⟩, ?_, ?_, ?_⟩
  · intro st e hw hc
    cases e with
    | cancel =>
      have hp : (handleWebSocket.step env st Event.cancel).phase = st.phase := rfl
      rw [hp, hw] at hc
      exact absurd hc (by decide)
    | tick =>
      refine ⟨rfl, ?_⟩
      by_contra hne
      have hok : env.writeOk st.writes = true := by
        cases hwr : env.writeOk st.writes
        · exact absurd hwr hne
        · rfl
      simp [handleWebSocket.step, hw, getDashboardData_err, hok] at hc
  · intro events ctx hctx
    have hstart : ∀ c ∈ (handleWebSocket.start env r).composed, c = Context.Background := by
      intro c hc
      unfold handleWebSocket.start at hc
      split at hc <;> simp at hc
    have h := foldl_composed_background env events _ hstart ctx hctx
    subst h
    exact ⟨rfl, rfl⟩
  · intro st r2
    unfold handleWebSocket.step
    cases hp : st.phase <;> simp only [hp, getDashboardData_err]
    · split <;> exact ⟨rfl, rfl⟩
    · exact ⟨trivial, trivial⟩

/-- Witness for C8 (amended): after a cancellation and a tick over a connection
whose writes succeed, the loop is waiting and the one context handed to the
composer is the background context. -/
theorem push_loop_ignores_cancellation_witness :
    Context.Background ∈
      (handleWebSocket steadyConnection ⟨false⟩ [Event.cancel, Event.tick]).composed ∧
    (handleWebSocket steadyConnection ⟨false⟩ [Event.cancel]).phase = Phase.Waiting ∧
    Context.Background.Err = none :=
  have hmem : Context.Background ∈
      (handleWebSocket steadyConnection ⟨false⟩ [Event.cancel, Event.tick]).composed := by
    decide!
  have h := push_loop_ignores_cancellation steadyConnection ⟨false⟩
  ⟨hmem, (h.1 (handleWebSocket steadyConnection ⟨false⟩ [])).1,
    (h.2.2.1 [Event.cancel, Event.tick] Context.Background hmem).2⟩

/-! ### JSON field names -/

theorem handleDashboard_body (s : Clientset) (r : Request) (rnd : Rand) (clk : Clock) :
    (handleDashboard s r rnd clk).Body =
      Body.json (getDashboardData s r.Context rnd clk).1.toJSON := by
  unfold handleDashboard
  simp only [getDashboardData_err]

theorem ofSlice_elems_keys {α : Type} (enc : α → JSON) (keys : List String)
    (h : ∀ a, (enc a).keys = keys) (xs : List α) :
    ∀ e ∈ (JSON.ofSlice enc xs).elems, e.keys = keys := by
  intro e he
  unfold JSON.ofSlice at he
  split at he
  · simp [JSON.elems] at he
  · simp only [JSON.elems, List.mem_map] at he
    obtain ⟨a, _, rfl⟩ := he
    exact h a

/-- C9: the keys emitted are fixed by the struct tags. Every element of the array
written by `handleServices` has exactly the keys name, errorRate, p95Latency,
requestsPerSec, status; every element of the array written by `handleDatabases`
has exactly the keys name, type, status, cpuUsage, memoryUsage, connections,
maxConnections, cacheHitRate, replicationLag, lastBackup; the object written by
`handleDashboard` has exactly the keys installations, services, databases,
cluster, security, projects, namespaces, alerts, recentActivity, its cluster
member exactly cpuUsage, memoryUsage, nodes, nodesReady and every element of
its namespaces member exactly name, cpuUsage, memoryUsage, podCount,
serviceCount. -/
theorem json_field_names :
    (∀ (s : Clientset) (r : Request) (rnd : Rand),
      ∃ elems, (handleServices s r rnd).Body = Body.json (JSON.arr elems) ∧
        5 ≤ elems.length ∧
        ∀ e ∈ elems,
          e.keys = ["name", "errorRate", "p95Latency", "requestsPerSec", "status"]) ∧
    (∀ rnd : Rand,
      ∃ elems, (handleDatabases rnd).Body = Body.json (JSON.arr elems) ∧
        elems.length = 3 ∧
        ∀ e ∈ elems,
          e.keys = ["name", "type", "status", "cpuUsage", "memoryUsage", "connections",
            "maxConnections", "cacheHitRate", "replicationLag", "lastBackup"]) ∧
    (∀ (s : Clientset) (r : Request) (rnd : Rand) (clk : Clock),
      ∃ v cluster namespaces, (handleDashboard s r rnd clk).Body = Body.json v ∧
        v.keys = ["installations", "services", "databases", "cluster", "security",
          "projects", "namespaces", "alerts", "recentActivity"] ∧
        v.get? "cluster" = some cluster ∧
        cluster.keys = ["cpuUsage", "memoryUsage", "nodes", "nodesReady"] ∧
        v.get? "namespaces" = some namespaces ∧
        namespaces.elems.length = (getDashboardData s r.Context rnd clk).1.Namespaces.length ∧
        ∀ e ∈ namespaces.elems,
          e.keys = ["name", "cpuUsage", "memoryUsage", "podCount", "serviceCount"]) ∧
    (∀ m : ServiceMetrics,
      m.toJSON.keys = ["name", "errorRate", "p95Latency", "requestsPerSec", "status"]) ∧
    (∀ m : DatabaseMetrics,
      m.toJSON.keys = ["name", "type", "status", "cpuUsage", "memoryUsage", "connections",
        "maxConnections", "cacheHitRate", "replicationLag", "lastBackup"]) ∧
    (∀ d : DashboardData,
      d.toJSON.keys = ["installations", "services", "databases", "cluster", "security",
        "projects", "namespaces", "alerts", "recentActivity"]) ∧
    (∀ c : ClusterData, c.toJSON.keys = ["cpuUsage", "memoryUsage", "nodes", "nodesReady"]) ∧
    (∀ n : NamespaceData,
      n.toJSON.keys = ["name", "cpuUsage", "memoryUsage", "podCount", "serviceCount"]) := by
  refine ⟨?_, ?_, ?_, fun _ => rfl, fun _ => rfl, fun _ => rfl, fun _ => rfl, fun _ => rfl⟩
  · intro s r rnd
    refine ⟨_, handleServices_body s r rnd, ?_, ?_⟩
    · rw [List.length_map]
      exact handleServices_services_ne_nil s r rnd
    · intro e he
      simp only [List.mem_map] at he
      obtain ⟨m, _, rfl⟩ := he
      rfl
  · intro rnd
    refine ⟨(handleDatabases.databases rnd).map DatabaseMetrics.toJSON, rfl, rfl, ?_⟩
    intro e he
    simp only [List.mem_map] at he
    obtain ⟨m, _, rfl⟩ := he
    rfl
  · intro s r rnd clk
    refine ⟨_, _, _, handleDashboard_body s r rnd clk, rfl, rfl, rfl, rfl, ?_,
      ofSlice_elems_keys NamespaceData.toJSON _ (fun _ => rfl) _⟩
    unfold JSON.ofSlice
    cases (getDashboardData s r.Context rnd clk).1.Namespaces with
    | nil => rfl
    | cons a rest => simp [JSON.elems]

/-- Witness for C9: the array written by `handleDatabases` has an element, and that
element carries exactly the ten database keys. -/
theorem json_field_names_witness :
    ∃ elems e, (handleDatabases zeroRand).Body = Body.json (JSON.arr elems) ∧ e ∈ elems ∧
      e.keys = ["name", "type", "status", "cpuUsage", "memoryUsage", "connections",
        "maxConnections", "cacheHitRate", "replicationLag", "lastBackup"] := by
  obtain ⟨elems, hbody, hlen, hall⟩ := json_field_names.2.1 zeroRand
  cases elems with
  | nil => simp at hlen
  | cons e rest =>
    exact ⟨e :: rest, e, hbody, List.mem_cons_self _ _, hall e (List.mem_cons_self _ _)⟩

/-- Witness for C10: with seven services returned, the five appended entries are
named after the first five, in the order returned, and with three services
returned the three appended entries are named after all three. -/
theorem services_entries_witness :
    zeroRand.BoundedInts ∧
    (busyCluster.clientset.Services "" (Request.Context ⟨false⟩)).err = none ∧
    ((handleServices.services busyCluster.clientset ⟨false⟩ zeroRand).drop 5).length = 5 ∧
    ((handleServices.services busyCluster.clientset ⟨false⟩ zeroRand).drop 5).map
        (fun e => (e.Name, e.P95Latency, e.RequestsPerSec, e.Status)) =
      [("default/kubernetes", 50, 100, "healthy"), ("default/web", 50, 100, "healthy"),
        ("kube-system/kube-dns", 50, 100, "healthy"), ("monitoring/grafana", 50, 100, "healthy"),
        ("monitoring/prometheus", 50, 100, "healthy")] ∧
    ((handleServices.services smallCluster.clientset ⟨false⟩ zeroRand).drop 5).map
        (fun e => (e.Name, e.P95Latency, e.RequestsPerSec, e.Status)) =
      [("default/kubernetes", 50, 100, "healthy"), ("default/web", 50, 100, "healthy"),
        ("kube-system/kube-dns", 50, 100, "healthy")] :=
  have hI : zeroRand.BoundedInts := fun _ _ hn => ⟨le_refl 0, hn⟩
  ⟨hI, rfl, ((services_entries busyCluster.clientset ⟨false⟩ zeroRand hI).2.2 rfl).1,
    by decide!, by decide!⟩

end BatteriesApi
